import Mathlib

/-!
# Zabbuino sensor acquisition: MH-Zxx (UART and PWM) and MAX6675 (bit-banged SPI)

A shallow embedding of `src/mh_zxx.cpp` and `src/spi_max6675.cpp`.

* Bytes, 16-bit and 32-bit machine integers are natural numbers; every place where
  the C code can wrap is written with an explicit `% 256` or `% 2^32`.
* Hardware and library calls (`millis`, `digitalRead`, `serialRecive`, `spiReadByte`, ...)
  are inputs of the embedded functions: what the call returned is an argument, and the call
  itself is recorded in an event trace, in program order.
* The output slot `*_value` is passed in with the content it had before the call and
  returned with the content it has after the call.
-/

namespace Zabbuino

/-! ## Shared result contract -/

/-- Status codes of the metric read functions. Their numeric values are defined in headers
that are not part of the sources at hand; only their distinctness is used. In the C code
`rc` is kept in a `uint8_t` (UART, PWM) or `int8_t` (MAX6675) and returned as `int8_t`;
an 8-bit code survives that round trip unchanged. -/
inductive ResultCode
  | RESULT_IS_FAIL
  | RESULT_IS_UNSIGNED_VALUE
  | RESULT_IS_FLOAT_02_DIGIT
  | DEVICE_ERROR_TIMEOUT
  | DEVICE_ERROR_WRONG_ANSWER
  | DEVICE_ERROR_CHECKSUM
  | DEVICE_ERROR_WRONG_ID
  | DEVICE_ERROR_CONNECT
  | DEVICE_ERROR_ACK_L
  | DEVICE_ERROR_ACK_H
  deriving DecidableEq, Repr

/-- Logic level of a digital pin (`LOW` / `HIGH`). -/
inductive PinLevel
  | LOW
  | HIGH
  deriving DecidableEq, Repr

/-- Pin configuration passed to `pinMode`. -/
inductive PinDirection
  | INPUT
  | OUTPUT
  | INPUT_PULLUP
  deriving DecidableEq, Repr

/-- Externally visible calls made by the read functions, in the order they are made.
A call that returns data carries the data it returned. -/
inductive Event
  | pinMode (pin : Nat) (mode : PinDirection)
  | millis (t : Nat)
  | digitalRead (pin : Nat) (level : PinLevel)
  | digitalWrite (pin : Nat) (level : PinLevel)
  | delayOneMs
  | delayConversion
  | spiReadByte (b : Nat)
  | stopTimerOne
  | startTimerOne
  | gatherSystemMetrics
  | serialConstruct (rxPin txPin : Nat)
  | serialBegin
  | flushStreamRXBuffer
  | serialSend (bytes : List Nat)
  | serialRecive (len : Nat)
  | serialDestroy
  deriving DecidableEq, Repr

/-- What a read function hands back: the returned status code, the content of the
output slot `*_value` after the call, and the calls it made. -/
structure MetricResult where
  rc : ResultCode
  value : Int
  trace : List Event
  deriving DecidableEq, Repr

/-- Constants that the sources use but that are defined in headers outside the sources at
hand, and for which the specification fixes no value. They are parameters of the embedding.
The two value offsets index the 9-byte frame, so they are below the frame size. -/
structure Config where
  MH_ZXX_PREHEAT_TIMEOUT : Nat
  MH_ZXX_PREHEAT_GAS_CONCENTRATION : Int
  MH_ZXX_CYCLE_TIME : Nat
  MH_ZXX_GAS_CONCENTRATION_HIGH_BYTE : Fin 9
  MH_ZXX_GAS_CONCENTRATION_LOW_BYTE : Fin 9
  SENS_READ_TEMP : Nat

/-! ## Machine arithmetic -/

/-- Unsigned 32-bit subtraction `a - b` (wraps modulo `2^32`). -/
def sub32 (a b : Nat) : Nat := (a % 4294967296 + 4294967296 - b % 4294967296) % 4294967296

/-- Unsigned 32-bit addition. -/
def add32 (a b : Nat) : Nat := (a + b) % 4294967296

/-- Unsigned 32-bit multiplication. -/
def mul32 (a b : Nat) : Nat := (a * b) % 4294967296

/-- Conversion of an unsigned 32-bit quantity to `int32_t` (two's complement). -/
def toInt32 (n : Nat) : Int :=
  if n % 4294967296 < 2147483648 then ((n % 4294967296 : Nat) : Int)
  else ((n % 4294967296 : Nat) : Int) - 4294967296

/-- Conversion of a 16-bit pattern to the C `int` of the target. The sources are written for
the 8-bit AVR (`_delay_ms`, 8-bit port registers, Timer1), where `int` has 16 bits; a product
that does not fit wraps in two's complement, which is what the target's compiler produces
for a signed overflow. -/
def toInt16 (n : Nat) : Int :=
  if n % 65536 < 32768 then ((n % 65536 : Nat) : Int)
  else ((n % 65536 : Nat) : Int) - 65536

/-! ## MH-Zxx frame layout -/

/-- Modelled from the spec: `MH_ZXX_PACKET_SIZE` is defined in a header outside the sources
at hand; the spec fixes the frame at 9 bytes for both request and response. -/
def MH_ZXX_PACKET_SIZE : Nat := 9

/-- Modelled from the spec: offset of the start marker (frame offset 0). -/
def MH_ZXX_STARTING_BYTE : Nat := 0

/-- Modelled from the spec: offset of the device address (frame offset 1). -/
def MH_ZXX_SENSOR_NUMBER : Nat := 1

/-- Modelled from the spec: offset of the command code (frame offset 2). -/
def MH_ZXX_CMD : Nat := 2

/-- Modelled from the spec: offset of the checksum byte, the last byte of the frame. -/
def MH_ZXX_CRC : Nat := 8

/-- Modelled from the spec: the command code for reading the gas concentration, `0x86` in
the spec's end-to-end scenario. -/
def MH_ZXX_CMD_GAS_CONCENTRATION : Nat := 0x86

/-- Read of `_data[i]` from a byte buffer. -/
def byteAt (data : List Nat) (i : Nat) : Nat := data.getD i 0

/-- Body of the `for` loop of `crcMHZxx`, run for `n` iterations starting at index `i`:
`crc += _data[i]` in `uint8_t`. -/
def crcLoop (data : List Nat) : Nat → Nat → Nat → Nat
  | 0, _, crc => crc
  | n + 1, i, crc => crcLoop data n (i + 1) ((crc + byteAt data i) % 256)

/-- The function `crcMHZxx`: `crc = 0; for (i = 1; i < MH_ZXX_PACKET_SIZE-1; i++) crc += _data[i];
crc = 0xFF - crc; crc += 1; return crc;`, all in `uint8_t`. -/
def crcMHZxx (data : List Nat) : Nat :=
  let crc := crcLoop data (MH_ZXX_PACKET_SIZE - 1 - 1) 1 0
  let crc := (0xFF - crc) % 256
  (crc + 1) % 256

/-! ## MH-Zxx over UART -/

/-- The request frame as built by `getMHZxxMetricUART`: a zeroed 9-byte buffer with the
start marker, sensor number, command and the literal check value `0x79` stored in it. -/
def requestFrame : List Nat :=
  ((((List.replicate MH_ZXX_PACKET_SIZE 0).set MH_ZXX_STARTING_BYTE 0xFF).set
    MH_ZXX_SENSOR_NUMBER 0x01).set MH_ZXX_CMD MH_ZXX_CMD_GAS_CONCENTRATION).set MH_ZXX_CRC 0x79

/-- Modelled from the spec: `serialRecive` is defined outside the sources at hand. It stores
at most `MH_ZXX_PACKET_SIZE` of the bytes `rx` that arrive before the read timeout at the
start of the buffer and returns how many it stored. -/
def serialRecive (data rx : List Nat) : Nat × List Nat :=
  let len := min rx.length MH_ZXX_PACKET_SIZE
  (len, rx.take len ++ data.drop len)

/-- The function `getMHZxxMetricUART`. `now` is what `millis()` returns, `rx` the bytes the
sensor sends before the read timeout, `_value` the content of `*_value` before the call.
The product `256 * data[...]` of line 78 is computed in the 16-bit `int` of the target and
then stored into the 32-bit slot; line 79 adds the low byte in 32 bits. The `SoftwareSerial`
destructor runs twice on every path: by the explicit call of line 90 and when the object
goes out of scope at the return. -/
def getMHZxxMetricUART (cfg : Config) (rxPin txPin : Nat) (_value : Int) (now : Nat)
    (rx : List Nat) : MetricResult :=
  let enter := [Event.serialConstruct rxPin txPin, Event.millis now]
  if now > cfg.MH_ZXX_PREHEAT_TIMEOUT then
    let data := requestFrame
    let received := serialRecive data rx
    let len := received.1
    let data := received.2
    let io := enter ++ [Event.serialBegin, Event.flushStreamRXBuffer,
      Event.serialSend requestFrame, Event.serialRecive len]
    let finish := [Event.gatherSystemMetrics, Event.serialDestroy, Event.serialDestroy]
    if len < MH_ZXX_PACKET_SIZE then
      ⟨ResultCode.DEVICE_ERROR_TIMEOUT, _value, io ++ finish⟩
    else if 0xFF ≠ byteAt data MH_ZXX_STARTING_BYTE then
      ⟨ResultCode.DEVICE_ERROR_WRONG_ANSWER, _value, io ++ finish⟩
    else if byteAt data MH_ZXX_CRC ≠ crcMHZxx data then
      ⟨ResultCode.DEVICE_ERROR_CHECKSUM, _value, io ++ finish⟩
    else
      let value := toInt16 (256 * byteAt data cfg.MH_ZXX_GAS_CONCENTRATION_HIGH_BYTE.val)
      let value := value + (byteAt data cfg.MH_ZXX_GAS_CONCENTRATION_LOW_BYTE.val : Int)
      ⟨ResultCode.RESULT_IS_UNSIGNED_VALUE, value, io ++ finish⟩
  else
    ⟨ResultCode.RESULT_IS_UNSIGNED_VALUE, cfg.MH_ZXX_PREHEAT_GAS_CONCENTRATION,
      enter ++ [Event.gatherSystemMetrics, Event.serialDestroy, Event.serialDestroy]⟩

/-! ## MH-Zxx over PWM -/

/-- Stages of the pulse decoder (`MH_ZXX_STAGE_*`). -/
inductive Stage
  | MH_ZXX_STAGE_WAIT_FOR_LOW
  | MH_ZXX_STAGE_WAIT_FOR_HIGH
  | MH_ZXX_STAGE_COUNT_FOR_HIGH
  | MH_ZXX_STAGE_COUNT_FOR_LOW
  | MH_ZXX_STAGE_CYCLE_FINISHED
  deriving DecidableEq, Repr

/-- Local variables of `getMHZxxMetricPWM` that the polling loop updates. -/
structure PwmState where
  stage : Stage
  rc : ResultCode
  highTime : Nat
  lowTime : Nat
  deriving DecidableEq, Repr

/-- Values of the locals at loop entry. -/
def pwmInit : PwmState :=
  ⟨Stage.MH_ZXX_STAGE_WAIT_FOR_LOW, ResultCode.DEVICE_ERROR_ACK_L, 0, 0⟩

/-- The `switch (stage)` of one loop iteration. The boolean is `true` exactly when the
`goto finish` of the `MH_ZXX_STAGE_COUNT_FOR_LOW` case is taken. -/
def pwmSwitch (st : PwmState) (nowTime : Nat) (pinState : PinLevel) : PwmState × Bool :=
  match st.stage with
  | Stage.MH_ZXX_STAGE_WAIT_FOR_LOW =>
    if PinLevel.LOW = pinState then
      ({ st with rc := ResultCode.DEVICE_ERROR_ACK_H, stage := Stage.MH_ZXX_STAGE_WAIT_FOR_HIGH },
        false)
    else (st, false)
  | Stage.MH_ZXX_STAGE_WAIT_FOR_HIGH =>
    if PinLevel.HIGH = pinState then
      ({ st with rc := ResultCode.DEVICE_ERROR_TIMEOUT, stage := Stage.MH_ZXX_STAGE_COUNT_FOR_HIGH,
                 highTime := nowTime }, false)
    else (st, false)
  | Stage.MH_ZXX_STAGE_COUNT_FOR_HIGH =>
    if PinLevel.LOW = pinState then
      ({ st with highTime := sub32 nowTime st.highTime, lowTime := nowTime,
                 stage := Stage.MH_ZXX_STAGE_COUNT_FOR_LOW }, false)
    else (st, false)
  | Stage.MH_ZXX_STAGE_COUNT_FOR_LOW =>
    if PinLevel.HIGH = pinState then
      ({ st with lowTime := sub32 nowTime st.lowTime,
                 stage := Stage.MH_ZXX_STAGE_CYCLE_FINISHED }, true)
    else (st, false)
  | Stage.MH_ZXX_STAGE_CYCLE_FINISHED => (st, false)

/-- Calls made by one loop iteration: `nowTime = millis(); pinState = digitalRead(_pin);`. -/
def pollEvents (pin : Nat) (p : Nat × PinLevel) : List Event :=
  [Event.millis p.1, Event.digitalRead pin p.2]

/-- The `do { ... } while (nowTime - startTime < MH_ZXX_CYCLE_TIME)` loop. Each element of
the script is what one iteration reads: the clock and the pin level. The result is the locals
at `finish:` and the calls made, or `none` when the script ends before the loop does. -/
def pwmLoop (cycleTime startTime pin : Nat) :
    List (Nat × PinLevel) → PwmState → Option (PwmState × List Event)
  | [], _ => none
  | p :: rest, st =>
    let next := pwmSwitch st p.1 p.2
    if next.2 then some (next.1, pollEvents pin p)
    else if sub32 p.1 startTime < cycleTime then
      (pwmLoop cycleTime startTime pin rest next.1).map
        (fun r => (r.1, pollEvents pin p ++ r.2))
    else some (next.1, pollEvents pin p)

/-- How a run of `getMHZxxMetricPWM` ends. -/
inductive Run
  | returned (r : MetricResult)
  | divisionByZero (trace : List Event)
  | starved
  deriving DecidableEq, Repr

/-- The function `getMHZxxMetricPWM`. `t0` is the first `millis()` reading (the preheat test),
`tStart` the second (`startTime`), `polls` what the loop iterations read, `_value` the
content of `*_value` before the call (the function overwrites it on every path). `_range` is a `uint16_t`; the value expression is
evaluated in `uint32_t` and stored into the `int32_t` slot. A zero divisor is undefined
behaviour in C and ends the run as `divisionByZero`. -/
def getMHZxxMetricPWM (cfg : Config) (pin range : Nat) (_value : Int) (t0 tStart : Nat)
    (polls : List (Nat × PinLevel)) : Run :=
  let enter := [Event.pinMode pin PinDirection.INPUT_PULLUP, Event.millis t0]
  if t0 > cfg.MH_ZXX_PREHEAT_TIMEOUT then
    match pwmLoop cfg.MH_ZXX_CYCLE_TIME tStart pin polls pwmInit with
    | none => Run.starved
    | some (st, polled) =>
      let io := enter ++ [Event.stopTimerOne, Event.millis tStart] ++ polled
      if Stage.MH_ZXX_STAGE_CYCLE_FINISHED = st.stage then
        let divisor := sub32 (add32 st.highTime st.lowTime) 4
        if divisor = 0 then Run.divisionByZero io
        else
          let value := toInt32 (mul32 (range % 65536) (sub32 st.highTime 2) / divisor)
          Run.returned ⟨ResultCode.RESULT_IS_UNSIGNED_VALUE, value,
            io ++ [Event.startTimerOne, Event.gatherSystemMetrics]⟩
      else
        Run.returned ⟨ResultCode.RESULT_IS_UNSIGNED_VALUE, 0,
          io ++ [Event.startTimerOne, Event.gatherSystemMetrics]⟩
  else
    Run.returned ⟨ResultCode.RESULT_IS_UNSIGNED_VALUE, cfg.MH_ZXX_PREHEAT_GAS_CONCENTRATION, enter⟩

/-! ## MAX6675 over bit-banged SPI -/

/-- Modelled from the spec: `MAX6675_BITMASK_ID` is defined in a header outside the sources
at hand; the spec places the identifier flag at bit 15 of the 16-bit response. -/
def MAX6675_BITMASK_ID : Nat := 0x8000

/-- Modelled from the spec: `MAX6675_BITMASK_TERMOCOUPLE_INPUT` is defined in a header outside
the sources at hand; the spec places the open-circuit flag at bit 2 of the response. -/
def MAX6675_BITMASK_TERMOCOUPLE_INPUT : Nat := 0x0004

/-- The function `getMAX6675Metric`. `b1` and `b2` are what the two `spiReadByte` calls
return (8-bit quantities), `_value` the content of `*_value` before the call. `result` is a
`uint32_t`; the product `result * 25` is stored into the `int32_t` slot. -/
def getMAX6675Metric (cfg : Config) (misoPin sclkPin csPin metric : Nat) (_value : Int)
    (b1 b2 : Nat) : MetricResult :=
  let finish := [Event.gatherSystemMetrics, Event.digitalWrite csPin PinLevel.HIGH]
  if cfg.SENS_READ_TEMP ≠ metric then
    ⟨ResultCode.RESULT_IS_FAIL, _value, finish⟩
  else
    let io := [Event.pinMode misoPin PinDirection.INPUT, Event.pinMode sclkPin PinDirection.OUTPUT,
      Event.pinMode csPin PinDirection.OUTPUT,
      Event.digitalWrite csPin PinLevel.LOW, Event.delayOneMs,
      Event.digitalWrite csPin PinLevel.HIGH, Event.delayConversion,
      Event.digitalWrite csPin PinLevel.LOW, Event.delayOneMs,
      Event.spiReadByte b1, Event.spiReadByte b2]
    let result := b1 % 256
    let result := (result <<< 8) % 4294967296
    let result := result ||| (b2 % 256)
    if result &&& MAX6675_BITMASK_ID ≠ 0 then
      ⟨ResultCode.DEVICE_ERROR_WRONG_ID, _value, io ++ finish⟩
    else if result &&& MAX6675_BITMASK_TERMOCOUPLE_INPUT ≠ 0 then
      ⟨ResultCode.DEVICE_ERROR_CONNECT, _value, io ++ finish⟩
    else
      let result := result >>> 3
      let value := toInt32 (mul32 result 25)
      ⟨ResultCode.RESULT_IS_FLOAT_02_DIGIT, value, io ++ finish⟩

/-! ## Vocabulary of the statements -/

/-- A well-formed frame: exactly `MH_ZXX_PACKET_SIZE` entries, each of them a byte. -/
def IsFrame (d : List Nat) : Prop := d.length = MH_ZXX_PACKET_SIZE ∧ ∀ x ∈ d, x < 256

instance (d : List Nat) : Decidable (IsFrame d) := by
  unfold IsFrame; infer_instance

/-- The frame `d` with bit `k` of byte `i` flipped. -/
def flipBit (d : List Nat) (i k : Nat) : List Nat := d.set i (byteAt d i ^^^ 2 ^ k)

/-- The status code of a run that returns. -/
def Run.status : Run → Option ResultCode
  | Run.returned r => some r.rc
  | _ => none

/-- The content of the output slot after a run that returns. -/
def Run.written : Run → Option Int
  | Run.returned r => some r.value
  | _ => none

/-- The calls made by a run. -/
def Run.calls : Run → List Event
  | Run.returned r => r.trace
  | Run.divisionByZero trace => trace
  | Run.starved => []

/-- Whether a run ends in the division by zero. -/
def Run.dividesByZero : Run → Bool
  | Run.divisionByZero _ => true
  | _ => false

/-- Whether a status code denotes success. -/
def isSuccess (rc : ResultCode) : Bool :=
  decide (rc = ResultCode.RESULT_IS_UNSIGNED_VALUE ∨ rc = ResultCode.RESULT_IS_FLOAT_02_DIGIT)

/-- Position of a stage in the order of the decoder. -/
def Stage.rank : Stage → Nat
  | Stage.MH_ZXX_STAGE_WAIT_FOR_LOW => 0
  | Stage.MH_ZXX_STAGE_WAIT_FOR_HIGH => 1
  | Stage.MH_ZXX_STAGE_COUNT_FOR_HIGH => 2
  | Stage.MH_ZXX_STAGE_COUNT_FOR_LOW => 3
  | Stage.MH_ZXX_STAGE_CYCLE_FINISHED => 4

/-- The pairs of stage and tentative status that the decoder goes through. -/
def stagePairs : List (Stage × ResultCode) :=
  [(Stage.MH_ZXX_STAGE_WAIT_FOR_LOW, ResultCode.DEVICE_ERROR_ACK_L),
   (Stage.MH_ZXX_STAGE_WAIT_FOR_HIGH, ResultCode.DEVICE_ERROR_ACK_H),
   (Stage.MH_ZXX_STAGE_COUNT_FOR_HIGH, ResultCode.DEVICE_ERROR_TIMEOUT),
   (Stage.MH_ZXX_STAGE_COUNT_FOR_LOW, ResultCode.DEVICE_ERROR_TIMEOUT),
   (Stage.MH_ZXX_STAGE_CYCLE_FINISHED, ResultCode.DEVICE_ERROR_TIMEOUT)]

/-- The locals after the given polls went through the `switch`, one after the other. -/
def pwmFold (st : PwmState) : List (Nat × PinLevel) → PwmState
  | [] => st
  | p :: rest => pwmFold (pwmSwitch st p.1 p.2).1 rest

/-- The calls made by the loop iterations that read the given polls. -/
def pollsEvents (pin : Nat) : List (Nat × PinLevel) → List Event
  | [] => []
  | p :: rest => pollEvents pin p ++ pollsEvents pin rest

/-- Bounds on the locals of the decoder in terms of the time `m` elapsed since loop entry, as
the 32-bit clock showed it at the latest poll: the start of the high phase lies before it,
the high duration lies before the start of the low phase, and the two durations of a
finished cycle together do not exceed it. -/
def durationsWithin (tStart : Nat) (st : PwmState) (m : Nat) : Prop :=
  m < 4294967296 ∧
  match st.stage with
  | Stage.MH_ZXX_STAGE_WAIT_FOR_LOW => True
  | Stage.MH_ZXX_STAGE_WAIT_FOR_HIGH => True
  | Stage.MH_ZXX_STAGE_COUNT_FOR_HIGH => sub32 st.highTime tStart ≤ m
  | Stage.MH_ZXX_STAGE_COUNT_FOR_LOW =>
    st.highTime ≤ sub32 st.lowTime tStart ∧ sub32 st.lowTime tStart ≤ m
  | Stage.MH_ZXX_STAGE_CYCLE_FINISHED => st.highTime + st.lowTime ≤ m

/-- A configuration with concrete values for the constants that the sources leave to the
headers, used to run the functions on concrete inputs. -/
def sampleConfig : Config := ⟨180000, 399, 1004, 2, 3, 1⟩

/-- A configuration with a cycle budget of 100 seconds and no warm-up time. -/
def wideConfig : Config := ⟨0, 399, 100000, 2, 3, 1⟩

/-! ## The checksum -/

/-- A list of nine entries is a nine-element literal. -/
theorem frame_cases (d : List Nat) (h : d.length = 9) :
    ∃ d0 d1 d2 d3 d4 d5 d6 d7 d8, d = [d0, d1, d2, d3, d4, d5, d6, d7, d8] := by
  match d, h with
  | [d0, d1, d2, d3, d4, d5, d6, d7, d8], _ => exact ⟨d0, d1, d2, d3, d4, d5, d6, d7, d8, rfl⟩

/-- The checksum of a nine-byte buffer, with the loop unrolled. -/
theorem crcMHZxx_frame (d0 d1 d2 d3 d4 d5 d6 d7 d8 : Nat) :
    crcMHZxx [d0, d1, d2, d3, d4, d5, d6, d7, d8]
      = (0xFF - (d1 + d2 + d3 + d4 + d5 + d6 + d7) % 256 + 1) % 256 := by
  simp only [crcMHZxx, crcLoop, byteAt, MH_ZXX_PACKET_SIZE, List.getD_cons_succ, List.getD_cons_zero]
  omega

/-- C1: for every 9-byte frame `d`, `crcMHZxx d` is `(0xFF - ((d[1]+...+d[7]) mod 256) + 1) mod 256`,
which is the two's-complement negation of the 8-bit sum of bytes 1..7; it does not change when
byte 0 and byte 8 are replaced by anything, and it is `0` when the sum is `0` modulo 256. -/
theorem crcMHZxx_contract (d : List Nat) (hd : IsFrame d) :
    crcMHZxx d = (0xFF - (byteAt d 1 + byteAt d 2 + byteAt d 3 + byteAt d 4 + byteAt d 5
        + byteAt d 6 + byteAt d 7) % 256 + 1) % 256
    ∧ crcMHZxx d = (256 - (byteAt d 1 + byteAt d 2 + byteAt d 3 + byteAt d 4 + byteAt d 5
        + byteAt d 6 + byteAt d 7) % 256) % 256
    ∧ (∀ a b : Nat, crcMHZxx ((d.set 0 a).set 8 b) = crcMHZxx d)
    ∧ ((byteAt d 1 + byteAt d 2 + byteAt d 3 + byteAt d 4 + byteAt d 5
        + byteAt d 6 + byteAt d 7) % 256 = 0 → crcMHZxx d = 0) := by
  obtain ⟨d0, d1, d2, d3, d4, d5, d6, d7, d8, rfl⟩ := frame_cases d hd.1
  refine ⟨?_, ?_, ?_, ?_⟩
  · rw [crcMHZxx_frame]; simp [byteAt]
  · rw [crcMHZxx_frame]; simp only [byteAt, List.getD_cons_succ, List.getD_cons_zero]; omega
  · intro a b
    simp only [List.set_cons_zero, List.set_cons_succ]
    rw [crcMHZxx_frame, crcMHZxx_frame]
  · intro h
    rw [crcMHZxx_frame]
    simp only [byteAt, List.getD_cons_succ, List.getD_cons_zero] at h
    omega

/-- Witness of C1: a frame whose payload sums to 256 has checksum 0. -/
theorem crcMHZxx_contract_witness :
    IsFrame [0xFF, 0x80, 0x40, 0x20, 0x10, 0x08, 0x04, 0x04, 0x00]
    ∧ crcMHZxx [0xFF, 0x80, 0x40, 0x20, 0x10, 0x08, 0x04, 0x04, 0x00] = 0 :=
  ⟨by decide,
    (crcMHZxx_contract [0xFF, 0x80, 0x40, 0x20, 0x10, 0x08, 0x04, 0x04, 0x00]
      (by decide)).2.2.2 (by decide)⟩

/-! ## The serial frame protocol -/

/-- A full-length response replaces the whole buffer. -/
theorem serialRecive_full (rx : List Nat) (h : rx.length = 9) :
    serialRecive requestFrame rx = (9, rx) := by
  have hreq : requestFrame.drop 9 = [] := by decide
  have htake : rx.take 9 = rx := List.take_of_length_le (by omega)
  simp [serialRecive, h, MH_ZXX_PACKET_SIZE, hreq, htake]

/-- Past the warm-up deadline and with a full-length response, the call is decided by the
start byte and the checksum of the response alone. -/
theorem uart_full (cfg : Config) (rxPin txPin : Nat) (v : Int) (now : Nat) (rx : List Nat)
    (hnow : now > cfg.MH_ZXX_PREHEAT_TIMEOUT) (h : rx.length = 9) :
    getMHZxxMetricUART cfg rxPin txPin v now rx =
      ⟨if 0xFF ≠ byteAt rx 0 then ResultCode.DEVICE_ERROR_WRONG_ANSWER
        else if byteAt rx 8 ≠ crcMHZxx rx then ResultCode.DEVICE_ERROR_CHECKSUM
        else ResultCode.RESULT_IS_UNSIGNED_VALUE,
       if 0xFF ≠ byteAt rx 0 then v
        else if byteAt rx 8 ≠ crcMHZxx rx then v
        else toInt16 (256 * byteAt rx cfg.MH_ZXX_GAS_CONCENTRATION_HIGH_BYTE.val)
              + (byteAt rx cfg.MH_ZXX_GAS_CONCENTRATION_LOW_BYTE.val : Int),
       [Event.serialConstruct rxPin txPin, Event.millis now, Event.serialBegin,
        Event.flushStreamRXBuffer, Event.serialSend requestFrame, Event.serialRecive 9,
        Event.gatherSystemMetrics, Event.serialDestroy, Event.serialDestroy]⟩ := by
  unfold getMHZxxMetricUART
  simp only [serialRecive_full rx h, if_pos hnow, MH_ZXX_PACKET_SIZE, MH_ZXX_STARTING_BYTE,
    MH_ZXX_CRC, lt_irrefl, if_false]
  split_ifs <;> simp

/-- The 16-bit product of line 78: exact for a byte below `0x80`, 65536 too low from
`0x80` on. -/
theorem toInt16_product (b : Nat) (hb : b < 256) :
    toInt16 (256 * b) = if b < 128 then ((256 * b : Nat) : Int) else ((256 * b : Nat) : Int) - 65536 := by
  unfold toInt16
  have h1 : 256 * b % 65536 = 256 * b := Nat.mod_eq_of_lt (by omega)
  rw [h1]
  by_cases h : b < 128
  · rw [if_pos (by omega), if_pos h]
  · rw [if_neg (by omega), if_neg h]

/-- An entry of a frame is a byte. -/
theorem byteAt_lt (rx : List Nat) (hf : IsFrame rx) (i : Fin 9) : byteAt rx i.val < 256 := by
  have hi : i.val < rx.length := by rw [hf.1]; exact i.isLt
  unfold byteAt
  rw [List.getD_eq_getElem rx 0 hi]
  exact hf.2 _ (List.getElem_mem hi)

/-- Past the warm-up deadline, every full-length response that starts with `0xFF` and ends
with the checksum of its own bytes 1..7 is not reported as `DEVICE_ERROR_CHECKSUM`: the call
returns `RESULT_IS_UNSIGNED_VALUE`. The value stored is `256 * (high byte) + (low byte)` when
the high byte is below `0x80`, and 65536 less than that when it is `0x80` or more. The
frame built from any 7-byte payload and the checksum computed from it is such a response. -/
theorem getMHZxxMetricUART_valid (cfg : Config) (rxPin txPin : Nat) (v : Int) (now : Nat)
    (hnow : now > cfg.MH_ZXX_PREHEAT_TIMEOUT) :
    (∀ rx : List Nat, IsFrame rx → byteAt rx 0 = 0xFF → byteAt rx 8 = crcMHZxx rx →
      (getMHZxxMetricUART cfg rxPin txPin v now rx).rc ≠ ResultCode.DEVICE_ERROR_CHECKSUM
      ∧ (getMHZxxMetricUART cfg rxPin txPin v now rx).rc = ResultCode.RESULT_IS_UNSIGNED_VALUE
      ∧ (byteAt rx cfg.MH_ZXX_GAS_CONCENTRATION_HIGH_BYTE.val < 128 →
          (getMHZxxMetricUART cfg rxPin txPin v now rx).value
            = 256 * (byteAt rx cfg.MH_ZXX_GAS_CONCENTRATION_HIGH_BYTE.val : Int)
              + (byteAt rx cfg.MH_ZXX_GAS_CONCENTRATION_LOW_BYTE.val : Int))
      ∧ (128 ≤ byteAt rx cfg.MH_ZXX_GAS_CONCENTRATION_HIGH_BYTE.val →
          (getMHZxxMetricUART cfg rxPin txPin v now rx).value
            = 256 * (byteAt rx cfg.MH_ZXX_GAS_CONCENTRATION_HIGH_BYTE.val : Int)
              + (byteAt rx cfg.MH_ZXX_GAS_CONCENTRATION_LOW_BYTE.val : Int) - 65536))
    ∧ (∀ payload : List Nat, payload.length = 7 → (∀ x ∈ payload, x < 256) → ∀ c : Nat,
      IsFrame (0xFF :: payload ++ [crcMHZxx (0xFF :: payload ++ [c])])
      ∧ (getMHZxxMetricUART cfg rxPin txPin v now
          (0xFF :: payload ++ [crcMHZxx (0xFF :: payload ++ [c])])).rc
          = ResultCode.RESULT_IS_UNSIGNED_VALUE) := by
  have key : ∀ rx : List Nat, IsFrame rx → byteAt rx 0 = 0xFF → byteAt rx 8 = crcMHZxx rx →
      (getMHZxxMetricUART cfg rxPin txPin v now rx).rc ≠ ResultCode.DEVICE_ERROR_CHECKSUM
      ∧ (getMHZxxMetricUART cfg rxPin txPin v now rx).rc = ResultCode.RESULT_IS_UNSIGNED_VALUE
      ∧ (byteAt rx cfg.MH_ZXX_GAS_CONCENTRATION_HIGH_BYTE.val < 128 →
          (getMHZxxMetricUART cfg rxPin txPin v now rx).value
            = 256 * (byteAt rx cfg.MH_ZXX_GAS_CONCENTRATION_HIGH_BYTE.val : Int)
              + (byteAt rx cfg.MH_ZXX_GAS_CONCENTRATION_LOW_BYTE.val : Int))
      ∧ (128 ≤ byteAt rx cfg.MH_ZXX_GAS_CONCENTRATION_HIGH_BYTE.val →
          (getMHZxxMetricUART cfg rxPin txPin v now rx).value
            = 256 * (byteAt rx cfg.MH_ZXX_GAS_CONCENTRATION_HIGH_BYTE.val : Int)
              + (byteAt rx cfg.MH_ZXX_GAS_CONCENTRATION_LOW_BYTE.val : Int) - 65536) := by
    intro rx hf h0 hc
    have hprod := toInt16_product _ (byteAt_lt rx hf cfg.MH_ZXX_GAS_CONCENTRATION_HIGH_BYTE)
    rw [uart_full cfg rxPin txPin v now rx hnow hf.1]
    simp only [h0, hc, ne_eq, not_true_eq_false, if_false, hprod]
    refine ⟨by simp, trivial, ?_, ?_⟩
    · intro hlt
      rw [if_pos hlt]; push_cast; ring
    · intro hge
      rw [if_neg (by omega)]; push_cast; ring
  refine ⟨key, ?_⟩
  intro payload hlen hb c
  have hcrc : ∀ d : List Nat, crcMHZxx d < 256 := by
    intro d; unfold crcMHZxx; exact Nat.mod_lt _ (by decide)
  match payload, hlen with
  | [p1, p2, p3, p4, p5, p6, p7], _ =>
    have hfr : IsFrame (0xFF :: [p1, p2, p3, p4, p5, p6, p7]
        ++ [crcMHZxx (0xFF :: [p1, p2, p3, p4, p5, p6, p7] ++ [c])]) := by
      refine ⟨by simp [MH_ZXX_PACKET_SIZE], ?_⟩
      intro x hx
      simp only [List.cons_append, List.nil_append, List.mem_cons, List.mem_singleton,
        List.not_mem_nil, or_false] at hx
      have hb1 := hb p1 (by simp)
      have hb2 := hb p2 (by simp)
      have hb3 := hb p3 (by simp)
      have hb4 := hb p4 (by simp)
      have hb5 := hb p5 (by simp)
      have hb6 := hb p6 (by simp)
      have hb7 := hb p7 (by simp)
      have hb8 := hcrc [0xFF, p1, p2, p3, p4, p5, p6, p7, c]
      rcases hx with h | h | h | h | h | h | h | h | h <;> subst h <;>
        first | assumption | decide
    have h2 := key _ hfr (by simp [byteAt]) (by
      simp only [List.cons_append, List.nil_append, byteAt, List.getD_cons_succ,
        List.getD_cons_zero]
      rw [crcMHZxx_frame, crcMHZxx_frame])
    exact ⟨hfr, h2.2.1⟩

/-- The accepted response `FF 86 01 2C 00 00 00 00 4D` decodes to 300 under the sample
configuration. -/
theorem getMHZxxMetricUART_valid_witness :
    200000 > sampleConfig.MH_ZXX_PREHEAT_TIMEOUT
    ∧ (getMHZxxMetricUART sampleConfig 2 3 (-1) 200000
        [0xFF, 0x86, 0x01, 0x2C, 0, 0, 0, 0, 0x4D]).rc = ResultCode.RESULT_IS_UNSIGNED_VALUE
    ∧ (getMHZxxMetricUART sampleConfig 2 3 (-1) 200000
        [0xFF, 0x86, 0x01, 0x2C, 0, 0, 0, 0, 0x4D]).value = 300 :=
  have h := (getMHZxxMetricUART_valid sampleConfig 2 3 (-1) 200000 (by decide)).1
    [0xFF, 0x86, 0x01, 0x2C, 0, 0, 0, 0, 0x4D] (by decide) (by decide) (by decide)
  ⟨by decide, h.2.1, (h.2.2.1 (by decide)).trans (by decide)⟩

/-- C2, the code at the failing input: the response `FF 86 80 00 00 00 00 00 FA` is a 9-byte
frame that starts with `0xFF` and ends with the checksum of its bytes 1..7. Past the warm-up
deadline it is accepted with `RESULT_IS_UNSIGNED_VALUE`, and with the value bytes at offsets
2 and 3 the slot receives `-32768`, where `256 * 0x80 + 0x00` is `32768`: the product of
line 78 does not fit the 16-bit `int`. -/
theorem uart_high_byte_overflows :
    IsFrame [0xFF, 0x86, 0x80, 0x00, 0, 0, 0, 0, 0xFA]
    ∧ byteAt [0xFF, 0x86, 0x80, 0x00, 0, 0, 0, 0, 0xFA] 0 = 0xFF
    ∧ byteAt [0xFF, 0x86, 0x80, 0x00, 0, 0, 0, 0, 0xFA] 8
        = crcMHZxx [0xFF, 0x86, 0x80, 0x00, 0, 0, 0, 0, 0xFA]
    ∧ (getMHZxxMetricUART sampleConfig 2 3 (-1) 200000
        [0xFF, 0x86, 0x80, 0x00, 0, 0, 0, 0, 0xFA]).rc = ResultCode.RESULT_IS_UNSIGNED_VALUE
    ∧ (getMHZxxMetricUART sampleConfig 2 3 (-1) 200000
        [0xFF, 0x86, 0x80, 0x00, 0, 0, 0, 0, 0xFA]).value = -32768
    ∧ (256 : Int) * 0x80 + 0x00 = 32768 := by
  refine ⟨by decide, by decide, by decide, by decide, by decide, by decide⟩

/-- Flipping one bit of a byte gives a byte. -/
theorem flip_lt (x k : Nat) (hx : x < 256) (hk : k < 8) : x ^^^ 2 ^ k < 256 := by
  have h2 : 2 ^ k < 2 ^ 8 := Nat.pow_lt_pow_right (by decide) hk
  exact Nat.xor_lt_two_pow (n := 8) hx h2

/-- Flipping one bit of a byte changes it. -/
theorem flip_ne (x k : Nat) : x ^^^ 2 ^ k ≠ x := by
  intro h
  have h1 : x ^^^ 2 ^ k = x ^^^ 0 := by rw [h, Nat.xor_zero]
  have h2 : 2 ^ k = 0 := Nat.xor_right_inj.mp h1
  exact absurd h2 (Nat.pos_iff_ne_zero.mp (Nat.two_pow_pos k))

/-- C3: take a valid 9-byte response (first byte `0xFF`, last byte the checksum of the frame)
and flip any single bit `k` of any payload byte `i` in 1..7. Past the warm-up deadline the
flipped response is rejected with `DEVICE_ERROR_CHECKSUM`, and the output slot is left alone. -/
theorem getMHZxxMetricUART_bit_flip (cfg : Config) (rxPin txPin : Nat) (v : Int) (now : Nat)
    (rx : List Nat) (i k : Nat) (hnow : now > cfg.MH_ZXX_PREHEAT_TIMEOUT) (hf : IsFrame rx)
    (h0 : byteAt rx 0 = 0xFF) (hc : byteAt rx 8 = crcMHZxx rx)
    (hi1 : 1 ≤ i) (hi7 : i ≤ 7) (hk : k < 8) :
    (getMHZxxMetricUART cfg rxPin txPin v now (flipBit rx i k)).rc
        = ResultCode.DEVICE_ERROR_CHECKSUM
    ∧ (getMHZxxMetricUART cfg rxPin txPin v now (flipBit rx i k)).value = v := by
  obtain ⟨d0, d1, d2, d3, d4, d5, d6, d7, d8, rfl⟩ := frame_cases rx hf.1
  have hlen : (flipBit [d0, d1, d2, d3, d4, d5, d6, d7, d8] i k).length = 9 := by
    simp [flipBit]
  rw [uart_full cfg rxPin txPin v now _ hnow hlen]
  have hb := hf.2
  have hb1 := hb d1 (by simp)
  have hb2 := hb d2 (by simp)
  have hb3 := hb d3 (by simp)
  have hb4 := hb d4 (by simp)
  have hb5 := hb d5 (by simp)
  have hb6 := hb d6 (by simp)
  have hb7 := hb d7 (by simp)
  rw [crcMHZxx_frame] at hc
  simp only [byteAt, List.getD_cons_succ, List.getD_cons_zero] at h0 hc
  subst h0
  have hbad : byteAt (flipBit [255, d1, d2, d3, d4, d5, d6, d7, d8] i k) 0 = 0xFF
      ∧ byteAt (flipBit [255, d1, d2, d3, d4, d5, d6, d7, d8] i k) 8
        ≠ crcMHZxx (flipBit [255, d1, d2, d3, d4, d5, d6, d7, d8] i k) := by
    interval_cases i <;>
      simp only [flipBit, byteAt, List.set_cons_zero, List.set_cons_succ, List.getD_cons_succ,
        List.getD_cons_zero, crcMHZxx_frame, true_and]
    · have := flip_lt d1 k hb1 hk; have := flip_ne d1 k; omega
    · have := flip_lt d2 k hb2 hk; have := flip_ne d2 k; omega
    · have := flip_lt d3 k hb3 hk; have := flip_ne d3 k; omega
    · have := flip_lt d4 k hb4 hk; have := flip_ne d4 k; omega
    · have := flip_lt d5 k hb5 hk; have := flip_ne d5 k; omega
    · have := flip_lt d6 k hb6 hk; have := flip_ne d6 k; omega
    · have := flip_lt d7 k hb7 hk; have := flip_ne d7 k; omega
  simp [hbad.1, hbad.2]

/-- Witness of C3: bit 5 of byte 3 of a valid response is flipped. -/
theorem getMHZxxMetricUART_bit_flip_witness :
    200000 > sampleConfig.MH_ZXX_PREHEAT_TIMEOUT
    ∧ IsFrame [0xFF, 0x86, 0x01, 0x2C, 0, 0, 0, 0, 0x4D]
    ∧ flipBit [0xFF, 0x86, 0x01, 0x2C, 0, 0, 0, 0, 0x4D] 3 5
        = [0xFF, 0x86, 0x01, 0x0C, 0, 0, 0, 0, 0x4D]
    ∧ (getMHZxxMetricUART sampleConfig 2 3 (-1) 200000
        (flipBit [0xFF, 0x86, 0x01, 0x2C, 0, 0, 0, 0, 0x4D] 3 5)).rc
        = ResultCode.DEVICE_ERROR_CHECKSUM :=
  ⟨by decide, by decide, by decide,
    (getMHZxxMetricUART_bit_flip sampleConfig 2 3 (-1) 200000
      [0xFF, 0x86, 0x01, 0x2C, 0, 0, 0, 0, 0x4D] 3 5 (by decide) (by decide) (by decide)
      (by decide) (by decide) (by decide) (by decide)).1⟩

/-- C4: past the warm-up deadline, every full-length response whose first byte is not `0xFF`
is answered with `DEVICE_ERROR_WRONG_ANSWER`, whatever the other eight bytes are (no
assumption on the checksum byte), and the output slot is left alone. -/
theorem getMHZxxMetricUART_wrong_start (cfg : Config) (rxPin txPin : Nat) (v : Int) (now : Nat)
    (rx : List Nat) (hnow : now > cfg.MH_ZXX_PREHEAT_TIMEOUT) (hf : IsFrame rx)
    (h0 : byteAt rx 0 ≠ 0xFF) :
    (getMHZxxMetricUART cfg rxPin txPin v now rx).rc = ResultCode.DEVICE_ERROR_WRONG_ANSWER
    ∧ (getMHZxxMetricUART cfg rxPin txPin v now rx).value = v := by
  rw [uart_full cfg rxPin txPin v now rx hnow hf.1]
  have h1 : (255 : Nat) ≠ byteAt rx 0 := fun h => h0 h.symm
  simp [h1]

/-- Witness of C4: a response with a wrong start byte and a right checksum byte. -/
theorem getMHZxxMetricUART_wrong_start_witness :
    200000 > sampleConfig.MH_ZXX_PREHEAT_TIMEOUT
    ∧ IsFrame [0xFE, 0x86, 0x01, 0x2C, 0, 0, 0, 0, 0x4D]
    ∧ byteAt [0xFE, 0x86, 0x01, 0x2C, 0, 0, 0, 0, 0x4D] 8
        = crcMHZxx [0xFE, 0x86, 0x01, 0x2C, 0, 0, 0, 0, 0x4D]
    ∧ (getMHZxxMetricUART sampleConfig 2 3 (-1) 200000
        [0xFE, 0x86, 0x01, 0x2C, 0, 0, 0, 0, 0x4D]).rc = ResultCode.DEVICE_ERROR_WRONG_ANSWER :=
  ⟨by decide, by decide, by decide,
    (getMHZxxMetricUART_wrong_start sampleConfig 2 3 (-1) 200000
      [0xFE, 0x86, 0x01, 0x2C, 0, 0, 0, 0, 0x4D] (by decide) (by decide) (by decide)).1⟩

/-- Counterexample to C5: of the scenario's ten bytes (nine listed bytes followed by the
checksum `0x78` of bytes 1..7) only the first nine are read, `0x2C` stands at the checksum
offset, and the call returns `DEVICE_ERROR_CHECKSUM` with the output slot untouched. This is
so as well when the value offsets are 7 and 8, where the scenario has `0x01, 0x2C`, and
for the nine listed bytes alone. -/
theorem scenario_ten_bytes_rejected :
    crcMHZxx [0xFF, 0x01, 0x86, 0, 0, 0, 0, 0x01, 0x2C] = 0x78
    ∧ (getMHZxxMetricUART sampleConfig 2 3 (-1) 200000
        [0xFF, 0x01, 0x86, 0, 0, 0, 0, 0x01, 0x2C, 0x78]).rc = ResultCode.DEVICE_ERROR_CHECKSUM
    ∧ (getMHZxxMetricUART sampleConfig 2 3 (-1) 200000
        [0xFF, 0x01, 0x86, 0, 0, 0, 0, 0x01, 0x2C, 0x78]).value = -1
    ∧ (getMHZxxMetricUART ⟨180000, 399, 1004, 7, 8, 1⟩ 2 3 (-1) 200000
        [0xFF, 0x01, 0x86, 0, 0, 0, 0, 0x01, 0x2C, 0x78]).rc = ResultCode.DEVICE_ERROR_CHECKSUM
    ∧ (getMHZxxMetricUART sampleConfig 2 3 (-1) 200000
        [0xFF, 0x01, 0x86, 0, 0, 0, 0, 0x01, 0x2C]).rc = ResultCode.DEVICE_ERROR_CHECKSUM := by
  decide

/-- C5, amended: past the warm-up deadline, a 9-byte response that starts with `0xFF`, ends
with the checksum of its own bytes 1..7 and carries `0x01` and `0x2C` at the two value
offsets is accepted and decodes to 300 with `RESULT_IS_UNSIGNED_VALUE`. -/
theorem scenario_nine_byte_frame (cfg : Config) (rxPin txPin : Nat) (v : Int) (now : Nat)
    (rx : List Nat) (hnow : now > cfg.MH_ZXX_PREHEAT_TIMEOUT) (hf : IsFrame rx)
    (h0 : byteAt rx 0 = 0xFF) (hc : byteAt rx 8 = crcMHZxx rx)
    (hhi : byteAt rx cfg.MH_ZXX_GAS_CONCENTRATION_HIGH_BYTE.val = 0x01)
    (hlo : byteAt rx cfg.MH_ZXX_GAS_CONCENTRATION_LOW_BYTE.val = 0x2C) :
    (getMHZxxMetricUART cfg rxPin txPin v now rx).rc = ResultCode.RESULT_IS_UNSIGNED_VALUE
    ∧ (getMHZxxMetricUART cfg rxPin txPin v now rx).value = 300 := by
  rw [uart_full cfg rxPin txPin v now rx hnow hf.1]
  have h16 : toInt16 256 = 256 := by decide
  simp [h0, hc, hhi, hlo, h16]

/-- Witness of the amended C5, with the value offsets 6 and 7. -/
theorem scenario_nine_byte_frame_witness :
    200000 > (⟨180000, 399, 1004, 6, 7, 1⟩ : Config).MH_ZXX_PREHEAT_TIMEOUT
    ∧ IsFrame [0xFF, 0x01, 0x86, 0, 0, 0, 0x01, 0x2C, 0x4C]
    ∧ (getMHZxxMetricUART ⟨180000, 399, 1004, 6, 7, 1⟩ 2 3 (-1) 200000
        [0xFF, 0x01, 0x86, 0, 0, 0, 0x01, 0x2C, 0x4C]).rc = ResultCode.RESULT_IS_UNSIGNED_VALUE
    ∧ (getMHZxxMetricUART ⟨180000, 399, 1004, 6, 7, 1⟩ 2 3 (-1) 200000
        [0xFF, 0x01, 0x86, 0, 0, 0, 0x01, 0x2C, 0x4C]).value = 300 :=
  have h := scenario_nine_byte_frame ⟨180000, 399, 1004, 6, 7, 1⟩ 2 3 (-1) 200000
    [0xFF, 0x01, 0x86, 0, 0, 0, 0x01, 0x2C, 0x4C] (by decide) (by decide) (by decide)
    (by decide) (by decide) (by decide)
  ⟨by decide, by decide, h.1, h.2⟩

/-! ## The MAX6675 register read -/

/-- The two bus bytes, first one high, assembled in `uint32_t`. -/
theorem raw_eq (b1 b2 : Nat) (h1 : b1 < 256) (h2 : b2 < 256) :
    ((b1 % 256) <<< 8) % 4294967296 ||| (b2 % 256) = 256 * b1 + b2 := by
  rw [Nat.mod_eq_of_lt h1, Nat.mod_eq_of_lt h2, Nat.shiftLeft_eq]
  rw [Nat.mod_eq_of_lt (by omega)]
  have h := Nat.mul_add_lt_is_or (i := 8) h2 b1
  rw [Nat.mul_comm b1]
  exact h.symm

/-- A one-bit mask selects exactly the bit it names. -/
theorem and_mask_ne_zero (n i : Nat) : n &&& 2 ^ i ≠ 0 ↔ n.testBit i = true := by
  constructor
  · intro h
    by_contra hb
    apply h
    apply Nat.eq_of_testBit_eq
    intro j
    rw [Nat.testBit_and, Nat.testBit_two_pow, Nat.zero_testBit]
    by_cases hij : i = j
    · subst hij; simp [hb]
    · simp [hij]
  · intro hb h
    have h2 : (n &&& 2 ^ i).testBit i = true := by
      rw [Nat.testBit_and, Nat.testBit_two_pow]; simp [hb]
    rw [h, Nat.zero_testBit] at h2
    exact Bool.noConfusion h2

/-- C6: for every pair of bytes `b1`, `b2` read from the bus with the supported metric kind,
with `raw = 256 * b1 + b2`: if bit 15 of `raw` is set the call returns
`DEVICE_ERROR_WRONG_ID` (whatever bit 2 is); if bit 15 is clear and bit 2 is set it returns
`DEVICE_ERROR_CONNECT`; otherwise it returns `RESULT_IS_FLOAT_02_DIGIT` and stores
`(raw >> 3) * 25`. -/
theorem getMAX6675Metric_decode (cfg : Config) (misoPin sclkPin csPin : Nat) (v : Int)
    (b1 b2 : Nat) (h1 : b1 < 256) (h2 : b2 < 256) :
    ((256 * b1 + b2).testBit 15 = true →
      (getMAX6675Metric cfg misoPin sclkPin csPin cfg.SENS_READ_TEMP v b1 b2).rc
        = ResultCode.DEVICE_ERROR_WRONG_ID)
    ∧ ((256 * b1 + b2).testBit 15 = false → (256 * b1 + b2).testBit 2 = true →
      (getMAX6675Metric cfg misoPin sclkPin csPin cfg.SENS_READ_TEMP v b1 b2).rc
        = ResultCode.DEVICE_ERROR_CONNECT)
    ∧ ((256 * b1 + b2).testBit 15 = false → (256 * b1 + b2).testBit 2 = false →
      (getMAX6675Metric cfg misoPin sclkPin csPin cfg.SENS_READ_TEMP v b1 b2).rc
        = ResultCode.RESULT_IS_FLOAT_02_DIGIT
      ∧ (getMAX6675Metric cfg misoPin sclkPin csPin cfg.SENS_READ_TEMP v b1 b2).value
        = (((256 * b1 + b2) >>> 3) * 25 : Nat)) := by
  have hid : MAX6675_BITMASK_ID = 2 ^ 15 := by decide
  have htc : MAX6675_BITMASK_TERMOCOUPLE_INPUT = 2 ^ 2 := by decide
  have hraw := raw_eq b1 b2 h1 h2
  have hval : toInt32 (mul32 ((256 * b1 + b2) >>> 3) 25) = (((256 * b1 + b2) >>> 3) * 25 : Nat) := by
    have hlt : (256 * b1 + b2) >>> 3 < 8192 := by
      rw [Nat.shiftRight_eq_div_pow]; omega
    unfold toInt32 mul32
    rw [Nat.mod_mod, Nat.mod_eq_of_lt (by omega), if_pos (by omega)]
  unfold getMAX6675Metric
  simp only [ne_eq, not_true_eq_false, if_false, hraw, hid, htc]
  refine ⟨?_, ?_, ?_⟩
  · intro h15
    rw [if_pos ((and_mask_ne_zero _ _).mpr h15)]
  · intro h15 h2'
    have n15 : ¬ ((256 * b1 + b2) &&& 2 ^ 15 ≠ 0) := by
      rw [and_mask_ne_zero]; simp [h15]
    rw [if_neg n15, if_pos ((and_mask_ne_zero _ _).mpr h2')]
  · intro h15 h2'
    have n15 : ¬ ((256 * b1 + b2) &&& 2 ^ 15 ≠ 0) := by
      rw [and_mask_ne_zero]; simp [h15]
    have n2 : ¬ ((256 * b1 + b2) &&& 2 ^ 2 ≠ 0) := by
      rw [and_mask_ne_zero]; simp [h2']
    rw [if_neg n15, if_neg n2]
    exact ⟨rfl, hval⟩

/-- Witness of C6: one register value for each of the three outcomes. -/
theorem getMAX6675Metric_decode_witness :
    (getMAX6675Metric sampleConfig 12 13 10 sampleConfig.SENS_READ_TEMP (-1) 0x82 0x34).rc
        = ResultCode.DEVICE_ERROR_WRONG_ID
    ∧ (getMAX6675Metric sampleConfig 12 13 10 sampleConfig.SENS_READ_TEMP (-1) 0x02 0x34).rc
        = ResultCode.DEVICE_ERROR_CONNECT
    ∧ (getMAX6675Metric sampleConfig 12 13 10 sampleConfig.SENS_READ_TEMP (-1) 0x12 0x30).rc
        = ResultCode.RESULT_IS_FLOAT_02_DIGIT
    ∧ (getMAX6675Metric sampleConfig 12 13 10 sampleConfig.SENS_READ_TEMP (-1) 0x12 0x30).value
        = 14550 :=
  ⟨(getMAX6675Metric_decode sampleConfig 12 13 10 (-1) 0x82 0x34 (by decide) (by decide)).1
      (by decide),
   (getMAX6675Metric_decode sampleConfig 12 13 10 (-1) 0x02 0x34 (by decide) (by decide)).2.1
      (by decide) (by decide),
   ((getMAX6675Metric_decode sampleConfig 12 13 10 (-1) 0x12 0x30 (by decide) (by decide)).2.2
      (by decide) (by decide)).1,
   ((getMAX6675Metric_decode sampleConfig 12 13 10 (-1) 0x12 0x30 (by decide) (by decide)).2.2
      (by decide) (by decide)).2.trans (by decide)⟩

/-! ## The pulse decoder -/

/-- A poll that leaves the locals alone and lies within the cycle budget is followed by the
rest of the loop. -/
theorem pwmLoop_cons_within (cycleTime startTime pin : Nat) (p : Nat × PinLevel)
    (rest : List (Nat × PinLevel)) (st st' : PwmState)
    (hsw : pwmSwitch st p.1 p.2 = (st', false)) (hb : sub32 p.1 startTime < cycleTime) :
    pwmLoop cycleTime startTime pin (p :: rest) st
      = (pwmLoop cycleTime startTime pin rest st').map
          (fun r => (r.1, pollEvents pin p ++ r.2)) := by
  simp [pwmLoop, hsw, hb]

/-- A poll past the cycle budget that does not finish the cycle ends the loop. -/
theorem pwmLoop_cons_elapsed (cycleTime startTime pin : Nat) (p : Nat × PinLevel)
    (rest : List (Nat × PinLevel)) (st st' : PwmState)
    (hsw : pwmSwitch st p.1 p.2 = (st', false)) (hb : ¬ sub32 p.1 startTime < cycleTime) :
    pwmLoop cycleTime startTime pin (p :: rest) st = some (st', pollEvents pin p) := by
  simp [pwmLoop, hsw, hb]

/-- The poll that finishes the cycle ends the loop, whatever the clock reads. -/
theorem pwmLoop_cons_finish (cycleTime startTime pin : Nat) (p : Nat × PinLevel)
    (rest : List (Nat × PinLevel)) (st st' : PwmState)
    (hsw : pwmSwitch st p.1 p.2 = (st', true)) :
    pwmLoop cycleTime startTime pin (p :: rest) st = some (st', pollEvents pin p) := by
  simp [pwmLoop, hsw]

/-- Polls within the budget that leave the locals alone do not change where the loop ends. -/
theorem pwmLoop_idle (cycleTime startTime pin : Nat) (seg rest : List (Nat × PinLevel))
    (st : PwmState) (hsw : ∀ p ∈ seg, pwmSwitch st p.1 p.2 = (st, false))
    (hb : ∀ p ∈ seg, sub32 p.1 startTime < cycleTime) :
    (pwmLoop cycleTime startTime pin (seg ++ rest) st).map Prod.fst
      = (pwmLoop cycleTime startTime pin rest st).map Prod.fst := by
  induction seg with
  | nil => rfl
  | cons p seg ih =>
    rw [List.cons_append, pwmLoop_cons_within cycleTime startTime pin p _ st st
      (hsw p (List.mem_cons_self _ _)) (hb p (List.mem_cons_self _ _))]
    rw [Option.map_map]
    have := ih (fun q hq => hsw q (List.mem_cons_of_mem _ hq))
      (fun q hq => hb q (List.mem_cons_of_mem _ hq))
    rw [← this]
    cases pwmLoop cycleTime startTime pin (seg ++ rest) st <;> rfl

/-- A poll within the budget that does not finish the cycle hands its locals to the next poll. -/
theorem pwmLoop_step (cycleTime startTime pin : Nat) (p : Nat × PinLevel)
    (rest : List (Nat × PinLevel)) (st st' : PwmState)
    (hsw : pwmSwitch st p.1 p.2 = (st', false)) (hb : sub32 p.1 startTime < cycleTime) :
    (pwmLoop cycleTime startTime pin (p :: rest) st).map Prod.fst
      = (pwmLoop cycleTime startTime pin rest st').map Prod.fst := by
  rw [pwmLoop_cons_within cycleTime startTime pin p rest st st' hsw hb, Option.map_map]
  cases pwmLoop cycleTime startTime pin rest st' <;> rfl

/-- Without wrap-around the 32-bit difference is the difference. -/
theorem sub32_of_le (a b : Nat) (hab : b ≤ a) (ha : a < 4294967296) : sub32 a b = a - b := by
  unfold sub32; omega

/-- One full pulse cycle, in 32-bit clock arithmetic: polls reading HIGH (`A`), the first LOW
at `ta`, polls reading LOW (`B`), the first HIGH at `t1`, polls reading HIGH (`C`), the first
LOW at `t2`, polls reading LOW (`D`) and the first HIGH at `t3`. All polls before the last one
lie within the cycle budget. -/
theorem pwmLoop_cycle (cycleTime startTime pin : Nat) (A B C D rest : List (Nat × PinLevel))
    (ta t1 t2 t3 : Nat)
    (hA : ∀ p ∈ A, p.2 = PinLevel.HIGH ∧ sub32 p.1 startTime < cycleTime)
    (hta : sub32 ta startTime < cycleTime)
    (hB : ∀ p ∈ B, p.2 = PinLevel.LOW ∧ sub32 p.1 startTime < cycleTime)
    (ht1 : sub32 t1 startTime < cycleTime)
    (hC : ∀ p ∈ C, p.2 = PinLevel.HIGH ∧ sub32 p.1 startTime < cycleTime)
    (ht2 : sub32 t2 startTime < cycleTime)
    (hD : ∀ p ∈ D, p.2 = PinLevel.LOW ∧ sub32 p.1 startTime < cycleTime) :
    (pwmLoop cycleTime startTime pin
        (A ++ (ta, PinLevel.LOW) :: (B ++ (t1, PinLevel.HIGH) :: (C ++ (t2, PinLevel.LOW) ::
          (D ++ (t3, PinLevel.HIGH) :: rest)))) pwmInit).map Prod.fst
      = some ⟨Stage.MH_ZXX_STAGE_CYCLE_FINISHED, ResultCode.DEVICE_ERROR_TIMEOUT,
          sub32 t2 t1, sub32 t3 t2⟩ := by
  rw [pwmLoop_idle cycleTime startTime pin A _ pwmInit
    (fun p hp => by simp [pwmSwitch, pwmInit, (hA p hp).1]) (fun p hp => (hA p hp).2)]
  rw [pwmLoop_step cycleTime startTime pin (ta, PinLevel.LOW) _ pwmInit
    ⟨Stage.MH_ZXX_STAGE_WAIT_FOR_HIGH, ResultCode.DEVICE_ERROR_ACK_H, 0, 0⟩
    (by simp [pwmSwitch, pwmInit]) hta]
  rw [pwmLoop_idle cycleTime startTime pin B _ _
    (fun p hp => by simp [pwmSwitch, (hB p hp).1]) (fun p hp => (hB p hp).2)]
  rw [pwmLoop_step cycleTime startTime pin (t1, PinLevel.HIGH) _ _
    ⟨Stage.MH_ZXX_STAGE_COUNT_FOR_HIGH, ResultCode.DEVICE_ERROR_TIMEOUT, t1, 0⟩
    (by simp [pwmSwitch]) ht1]
  rw [pwmLoop_idle cycleTime startTime pin C _ _
    (fun p hp => by simp [pwmSwitch, (hC p hp).1]) (fun p hp => (hC p hp).2)]
  rw [pwmLoop_step cycleTime startTime pin (t2, PinLevel.LOW) _ _
    ⟨Stage.MH_ZXX_STAGE_COUNT_FOR_LOW, ResultCode.DEVICE_ERROR_TIMEOUT, sub32 t2 t1, t2⟩
    (by simp [pwmSwitch]) ht2]
  rw [pwmLoop_idle cycleTime startTime pin D _ _
    (fun p hp => by simp [pwmSwitch, (hD p hp).1]) (fun p hp => (hD p hp).2)]
  rw [pwmLoop_cons_finish cycleTime startTime pin (t3, PinLevel.HIGH) _ _
    ⟨Stage.MH_ZXX_STAGE_CYCLE_FINISHED, ResultCode.DEVICE_ERROR_TIMEOUT, sub32 t2 t1,
      sub32 t3 t2⟩ (by simp [pwmSwitch])]
  rfl

/-- From the final locals to the final locals and the trace. -/
theorem loop_some_of_map (r : Option (PwmState × List Event)) (st : PwmState)
    (h : r.map Prod.fst = some st) : ∃ polled, r = some (st, polled) := by
  cases r with
  | none => simp at h
  | some x =>
    obtain ⟨s, tr⟩ := x
    simp only [Option.map_some', Option.some.injEq] at h
    exact ⟨tr, by rw [← h]⟩

/-- Past the warm-up deadline the call is determined by the locals at `finish:`. -/
theorem getMHZxxMetricPWM_of_loop (cfg : Config) (pin range : Nat) (v : Int) (t0 tStart : Nat)
    (polls : List (Nat × PinLevel)) (st : PwmState) (polled : List Event)
    (hnow : t0 > cfg.MH_ZXX_PREHEAT_TIMEOUT)
    (hloop : pwmLoop cfg.MH_ZXX_CYCLE_TIME tStart pin polls pwmInit = some (st, polled)) :
    getMHZxxMetricPWM cfg pin range v t0 tStart polls =
      if Stage.MH_ZXX_STAGE_CYCLE_FINISHED = st.stage then
        if sub32 (add32 st.highTime st.lowTime) 4 = 0 then
          Run.divisionByZero ([Event.pinMode pin PinDirection.INPUT_PULLUP, Event.millis t0,
            Event.stopTimerOne, Event.millis tStart] ++ polled)
        else
          Run.returned ⟨ResultCode.RESULT_IS_UNSIGNED_VALUE,
            toInt32 (mul32 (range % 65536) (sub32 st.highTime 2)
              / sub32 (add32 st.highTime st.lowTime) 4),
            [Event.pinMode pin PinDirection.INPUT_PULLUP, Event.millis t0,
              Event.stopTimerOne, Event.millis tStart] ++ polled
              ++ [Event.startTimerOne, Event.gatherSystemMetrics]⟩
      else
        Run.returned ⟨ResultCode.RESULT_IS_UNSIGNED_VALUE, 0,
          [Event.pinMode pin PinDirection.INPUT_PULLUP, Event.millis t0,
            Event.stopTimerOne, Event.millis tStart] ++ polled
            ++ [Event.startTimerOne, Event.gatherSystemMetrics]⟩ := by
  unfold getMHZxxMetricPWM
  simp only [if_pos hnow, hloop]
  split_ifs <;> simp

/-- The value expression without wrap-around. -/
theorem value_exact (range h l : Nat) (hrange : range < 65536) (hh : 2 ≤ h) (hsum : 4 < h + l)
    (hsum32 : h + l < 4294967296) (hprod : range * (h - 2) < 4294967296)
    (hq : range * (h - 2) / (h + l - 4) < 2147483648) :
    sub32 (add32 h l) 4 ≠ 0
    ∧ toInt32 (mul32 (range % 65536) (sub32 h 2) / sub32 (add32 h l) 4)
        = ((range * (h - 2) / (h + l - 4) : Nat) : Int) := by
  have hd : sub32 (add32 h l) 4 = h + l - 4 := by unfold sub32 add32; omega
  have hn : sub32 h 2 = h - 2 := by unfold sub32; omega
  rw [hd, hn, Nat.mod_eq_of_lt hrange]
  refine ⟨by omega, ?_⟩
  unfold toInt32 mul32
  rw [Nat.mod_eq_of_lt hprod, Nat.mod_eq_of_lt (by omega), if_pos hq]

/-- The loop calls nothing but `millis` and `digitalRead`. -/
theorem pwmLoop_polled (cycleTime startTime pin : Nat) (polls : List (Nat × PinLevel))
    (st st' : PwmState) (polled : List Event)
    (h : pwmLoop cycleTime startTime pin polls st = some (st', polled)) :
    ∀ e ∈ polled, (∃ t, e = Event.millis t) ∨ (∃ l, e = Event.digitalRead pin l) := by
  induction polls generalizing st st' polled with
  | nil => simp [pwmLoop] at h
  | cons p rest ih =>
    have hhere : ∀ e ∈ pollEvents pin p,
        (∃ t, e = Event.millis t) ∨ (∃ l, e = Event.digitalRead pin l) := by
      intro e he
      simp only [pollEvents, List.mem_cons, List.mem_singleton, List.not_mem_nil,
        or_false] at he
      rcases he with he | he
      · exact Or.inl ⟨_, he⟩
      · exact Or.inr ⟨_, he⟩
    simp only [pwmLoop] at h
    split_ifs at h with h1 h2
    · simp only [Option.some.injEq, Prod.mk.injEq] at h
      rw [← h.2]; exact hhere
    · cases hr : pwmLoop cycleTime startTime pin rest (pwmSwitch st p.1 p.2).1 with
      | none => rw [hr] at h; simp at h
      | some r =>
        obtain ⟨s2, tr2⟩ := r
        rw [hr] at h
        simp only [Option.map_some', Option.some.injEq, Prod.mk.injEq] at h
        rw [← h.2]
        intro e he
        rcases List.mem_append.mp he with he | he
        · exact hhere e he
        · exact ih _ _ _ hr e he
    · simp only [Option.some.injEq, Prod.mk.injEq] at h
      rw [← h.2]; exact hhere

/-- Waiting for HIGH while every poll reads LOW, until the budget has elapsed. -/
theorem pwmLoop_low_stuck (cycleTime startTime pin : Nat) (pre rest : List (Nat × PinLevel))
    (tEnd : Nat)
    (hpre : ∀ p ∈ pre, p.2 = PinLevel.LOW ∧ sub32 p.1 startTime < cycleTime)
    (hend : ¬ sub32 tEnd startTime < cycleTime) :
    (pwmLoop cycleTime startTime pin (pre ++ (tEnd, PinLevel.LOW) :: rest)
        ⟨Stage.MH_ZXX_STAGE_WAIT_FOR_HIGH, ResultCode.DEVICE_ERROR_ACK_H, 0, 0⟩).map Prod.fst
      = some ⟨Stage.MH_ZXX_STAGE_WAIT_FOR_HIGH, ResultCode.DEVICE_ERROR_ACK_H, 0, 0⟩ := by
  rw [pwmLoop_idle cycleTime startTime pin pre _ _
    (fun p hp => by simp [pwmSwitch, (hpre p hp).1]) (fun p hp => (hpre p hp).2)]
  rw [pwmLoop_cons_elapsed cycleTime startTime pin (tEnd, PinLevel.LOW) rest _
    ⟨Stage.MH_ZXX_STAGE_WAIT_FOR_HIGH, ResultCode.DEVICE_ERROR_ACK_H, 0, 0⟩
    (by simp [pwmSwitch]) hend]
  rfl


/-- C7: past the warm-up deadline, for every polled sequence in which LOW is observed, then HIGH
first observed at `t1`, then LOW first observed at `t2`, then HIGH first observed at `t3`
(clock readings in order, polls before the last one within the cycle budget), the decoder
reaches `MH_ZXX_STAGE_CYCLE_FINISHED` with `highTime = t2 - t1` and `lowTime = t3 - t2`.
For LOW, HIGH at 10, LOW at 60, HIGH at 90 (counted from loop entry `s`) the durations are
50 and 30 and the value written is `range * 48 / 76`. -/
theorem pwm_decodes_cycle :
    (∀ (cycleTime startTime pin : Nat) (A B C D rest : List (Nat × PinLevel))
        (ta t1 t2 t3 : Nat),
      (∀ p ∈ A, p.2 = PinLevel.HIGH ∧ sub32 p.1 startTime < cycleTime) →
      sub32 ta startTime < cycleTime →
      (∀ p ∈ B, p.2 = PinLevel.LOW ∧ sub32 p.1 startTime < cycleTime) →
      sub32 t1 startTime < cycleTime →
      (∀ p ∈ C, p.2 = PinLevel.HIGH ∧ sub32 p.1 startTime < cycleTime) →
      sub32 t2 startTime < cycleTime →
      (∀ p ∈ D, p.2 = PinLevel.LOW ∧ sub32 p.1 startTime < cycleTime) →
      t1 ≤ t2 → t2 ≤ t3 → t3 < 4294967296 →
      ∃ polled, pwmLoop cycleTime startTime pin
          (A ++ (ta, PinLevel.LOW) :: (B ++ (t1, PinLevel.HIGH) :: (C ++ (t2, PinLevel.LOW) ::
            (D ++ (t3, PinLevel.HIGH) :: rest)))) pwmInit
        = some (⟨Stage.MH_ZXX_STAGE_CYCLE_FINISHED, ResultCode.DEVICE_ERROR_TIMEOUT,
            t2 - t1, t3 - t2⟩, polled))
    ∧ (∀ (cfg : Config) (pin range : Nat) (v : Int) (t0 s tl : Nat),
      t0 > cfg.MH_ZXX_PREHEAT_TIMEOUT → range < 65536 → s ≤ tl → tl ≤ s + 10 →
      s + 90 < 4294967296 → 60 < cfg.MH_ZXX_CYCLE_TIME →
      ∃ polled tr,
        pwmLoop cfg.MH_ZXX_CYCLE_TIME s pin [(tl, PinLevel.LOW), (s + 10, PinLevel.HIGH),
            (s + 60, PinLevel.LOW), (s + 90, PinLevel.HIGH)] pwmInit
          = some (⟨Stage.MH_ZXX_STAGE_CYCLE_FINISHED, ResultCode.DEVICE_ERROR_TIMEOUT, 50, 30⟩,
              polled)
        ∧ getMHZxxMetricPWM cfg pin range v t0 s [(tl, PinLevel.LOW), (s + 10, PinLevel.HIGH),
            (s + 60, PinLevel.LOW), (s + 90, PinLevel.HIGH)]
          = Run.returned ⟨ResultCode.RESULT_IS_UNSIGNED_VALUE, ((range * 48 / 76 : Nat) : Int),
              tr⟩) := by
  have part1 : ∀ (cycleTime startTime pin : Nat) (A B C D rest : List (Nat × PinLevel))
        (ta t1 t2 t3 : Nat),
      (∀ p ∈ A, p.2 = PinLevel.HIGH ∧ sub32 p.1 startTime < cycleTime) →
      sub32 ta startTime < cycleTime →
      (∀ p ∈ B, p.2 = PinLevel.LOW ∧ sub32 p.1 startTime < cycleTime) →
      sub32 t1 startTime < cycleTime →
      (∀ p ∈ C, p.2 = PinLevel.HIGH ∧ sub32 p.1 startTime < cycleTime) →
      sub32 t2 startTime < cycleTime →
      (∀ p ∈ D, p.2 = PinLevel.LOW ∧ sub32 p.1 startTime < cycleTime) →
      t1 ≤ t2 → t2 ≤ t3 → t3 < 4294967296 →
      ∃ polled, pwmLoop cycleTime startTime pin
          (A ++ (ta, PinLevel.LOW) :: (B ++ (t1, PinLevel.HIGH) :: (C ++ (t2, PinLevel.LOW) ::
            (D ++ (t3, PinLevel.HIGH) :: rest)))) pwmInit
        = some (⟨Stage.MH_ZXX_STAGE_CYCLE_FINISHED, ResultCode.DEVICE_ERROR_TIMEOUT,
            t2 - t1, t3 - t2⟩, polled) := by
    intro cycleTime startTime pin A B C D rest ta t1 t2 t3 hA hta hB ht1 hC ht2 hD h12 h23 h3
    have h := pwmLoop_cycle cycleTime startTime pin A B C D rest ta t1 t2 t3 hA hta hB ht1 hC
      ht2 hD
    rw [sub32_of_le t2 t1 h12 (by omega), sub32_of_le t3 t2 h23 h3] at h
    exact loop_some_of_map _ _ h
  refine ⟨part1, ?_⟩
  intro cfg pin range v t0 s tl hnow hrange hs htl h90 hcyc
  obtain ⟨polled, hl⟩ := part1 cfg.MH_ZXX_CYCLE_TIME s pin [] [] [] [] [] tl (s + 10) (s + 60)
    (s + 90) (by simp) (by unfold sub32; omega) (by simp) (by unfold sub32; omega) (by simp)
    (by unfold sub32; omega) (by simp) (by omega) (by omega) h90
  have e1 : s + 60 - (s + 10) = 50 := by omega
  have e2 : s + 90 - (s + 60) = 30 := by omega
  simp only [List.nil_append, e1, e2] at hl
  refine ⟨polled, [Event.pinMode pin PinDirection.INPUT_PULLUP, Event.millis t0,
    Event.stopTimerOne, Event.millis s] ++ polled
    ++ [Event.startTimerOne, Event.gatherSystemMetrics], hl, ?_⟩
  rw [getMHZxxMetricPWM_of_loop cfg pin range v t0 s _ _ polled hnow hl]
  have hv := value_exact range 50 30 hrange (by decide) (by decide) (by decide) (by omega)
    (by omega)
  simp only [if_true]
  rw [if_neg hv.1, hv.2]

/-- Witness of C7: the scenario with range 2000, loop entry at 200000 ms. -/
theorem pwm_decodes_cycle_witness :
    ∃ polled tr,
      pwmLoop sampleConfig.MH_ZXX_CYCLE_TIME 200000 5 [(200000, PinLevel.LOW),
          (200000 + 10, PinLevel.HIGH), (200000 + 60, PinLevel.LOW),
          (200000 + 90, PinLevel.HIGH)] pwmInit
        = some (⟨Stage.MH_ZXX_STAGE_CYCLE_FINISHED, ResultCode.DEVICE_ERROR_TIMEOUT, 50, 30⟩,
            polled)
      ∧ getMHZxxMetricPWM sampleConfig 5 2000 (-1) 200000 200000 [(200000, PinLevel.LOW),
          (200000 + 10, PinLevel.HIGH), (200000 + 60, PinLevel.LOW),
          (200000 + 90, PinLevel.HIGH)]
        = Run.returned ⟨ResultCode.RESULT_IS_UNSIGNED_VALUE, ((2000 * 48 / 76 : Nat) : Int),
            tr⟩ :=
  pwm_decodes_cycle.2 sampleConfig 5 2000 (-1) 200000 200000 200000 (by decide) (by decide)
    (by decide) (by decide) (by decide) (by decide)

/-- Counterexample to C8: three completed cycles the state machine produces and for which the
value is not `range * (h - 2) / (h + l - 4)`: `h = 0, l = 10` (the subtraction `h - 2` wraps),
`h = 2, l = 2` (the divisor is zero and no value is computed), and `h = 70000, l = 8` with
range 65535 under a 100 s budget (the product wraps). -/
theorem pwm_value_wraps :
    (pwmLoop sampleConfig.MH_ZXX_CYCLE_TIME 200000 5 [(200000, PinLevel.LOW),
        (200010, PinLevel.HIGH), (200010, PinLevel.LOW), (200020, PinLevel.HIGH)] pwmInit).map
        Prod.fst
      = some ⟨Stage.MH_ZXX_STAGE_CYCLE_FINISHED, ResultCode.DEVICE_ERROR_TIMEOUT, 0, 10⟩
    ∧ (getMHZxxMetricPWM sampleConfig 5 2000 (-1) 200000 200000 [(200000, PinLevel.LOW),
        (200010, PinLevel.HIGH), (200010, PinLevel.LOW), (200020, PinLevel.HIGH)]).written
      = some 715827216
    ∧ (715827216 : Int) ≠ 2000 * (0 - 2) / (0 + 10 - 4)
    ∧ (pwmLoop sampleConfig.MH_ZXX_CYCLE_TIME 200000 5 [(200000, PinLevel.LOW),
        (200010, PinLevel.HIGH), (200012, PinLevel.LOW), (200014, PinLevel.HIGH)] pwmInit).map
        Prod.fst
      = some ⟨Stage.MH_ZXX_STAGE_CYCLE_FINISHED, ResultCode.DEVICE_ERROR_TIMEOUT, 2, 2⟩
    ∧ (getMHZxxMetricPWM sampleConfig 5 2000 (-1) 200000 200000 [(200000, PinLevel.LOW),
        (200010, PinLevel.HIGH), (200012, PinLevel.LOW), (200014, PinLevel.HIGH)]).dividesByZero
      = true
    ∧ (pwmLoop wideConfig.MH_ZXX_CYCLE_TIME 1 5 [(1, PinLevel.LOW),
        (2, PinLevel.HIGH), (70002, PinLevel.LOW), (70010, PinLevel.HIGH)] pwmInit).map
        Prod.fst
      = some ⟨Stage.MH_ZXX_STAGE_CYCLE_FINISHED, ResultCode.DEVICE_ERROR_TIMEOUT, 70000, 8⟩
    ∧ (getMHZxxMetricPWM wideConfig 5 65535 (-1) 1 1 [(1, PinLevel.LOW),
        (2, PinLevel.HIGH), (70002, PinLevel.LOW), (70010, PinLevel.HIGH)]).written
      = some 4176
    ∧ (4176 : Int) ≠ 65535 * (70000 - 2) / (70000 + 8 - 4) := by
  refine ⟨by decide, by decide, by decide, by decide, by decide, by decide, by decide,
    by decide⟩

/-- C8, amended: for every run past the warm-up deadline and every 16-bit range, if the cycle
completed with durations `h >= 2` and `l` such that `4 < h + l < 2^32`,
`range * (h - 2) < 2^32` and the quotient is below `2^31`, the value written is exactly
`range * (h - 2) / (h + l - 4)`; if the cycle did not complete, the value written is 0. -/
theorem getMHZxxMetricPWM_value (cfg : Config) (pin range : Nat) (v : Int) (t0 tStart : Nat)
    (polls : List (Nat × PinLevel)) (st : PwmState) (polled : List Event)
    (hnow : t0 > cfg.MH_ZXX_PREHEAT_TIMEOUT) (hrange : range < 65536)
    (hloop : pwmLoop cfg.MH_ZXX_CYCLE_TIME tStart pin polls pwmInit = some (st, polled)) :
    (st.stage = Stage.MH_ZXX_STAGE_CYCLE_FINISHED → 2 ≤ st.highTime →
      4 < st.highTime + st.lowTime → st.highTime + st.lowTime < 4294967296 →
      range * (st.highTime - 2) < 4294967296 →
      range * (st.highTime - 2) / (st.highTime + st.lowTime - 4) < 2147483648 →
      (getMHZxxMetricPWM cfg pin range v t0 tStart polls).written
        = some ((range * (st.highTime - 2) / (st.highTime + st.lowTime - 4) : Nat) : Int))
    ∧ (st.stage ≠ Stage.MH_ZXX_STAGE_CYCLE_FINISHED →
      (getMHZxxMetricPWM cfg pin range v t0 tStart polls).written = some 0) := by
  rw [getMHZxxMetricPWM_of_loop cfg pin range v t0 tStart polls st polled hnow hloop]
  constructor
  · intro hfin hh hsum hsum32 hprod hq
    have hv := value_exact range st.highTime st.lowTime hrange hh hsum hsum32 hprod hq
    rw [if_pos hfin.symm, if_neg hv.1, hv.2]
    rfl
  · intro hstage
    rw [if_neg (fun h => hstage h.symm)]
    rfl

/-- Witness of the amended C8: a completed cycle (50, 30) and a run stuck counting LOW. -/
theorem getMHZxxMetricPWM_value_witness :
    (getMHZxxMetricPWM sampleConfig 5 2000 (-1) 200000 200000 [(200000, PinLevel.LOW),
        (200010, PinLevel.HIGH), (200060, PinLevel.LOW), (200090, PinLevel.HIGH)]).written
      = some ((2000 * (50 - 2) / (50 + 30 - 4) : Nat) : Int)
    ∧ (getMHZxxMetricPWM sampleConfig 5 2000 (-1) 200000 200000 [(200000, PinLevel.LOW),
        (200010, PinLevel.HIGH), (200060, PinLevel.LOW), (201090, PinLevel.LOW)]).written
      = some 0 :=
  ⟨(getMHZxxMetricPWM_value sampleConfig 5 2000 (-1) 200000 200000 [(200000, PinLevel.LOW),
        (200010, PinLevel.HIGH), (200060, PinLevel.LOW), (200090, PinLevel.HIGH)]
      ⟨Stage.MH_ZXX_STAGE_CYCLE_FINISHED, ResultCode.DEVICE_ERROR_TIMEOUT, 50, 30⟩
      [Event.millis 200000, Event.digitalRead 5 PinLevel.LOW,
       Event.millis 200010, Event.digitalRead 5 PinLevel.HIGH,
       Event.millis 200060, Event.digitalRead 5 PinLevel.LOW,
       Event.millis 200090, Event.digitalRead 5 PinLevel.HIGH]
      (by decide) (by decide) (by decide)).1
      (by decide) (by decide) (by decide) (by decide) (by decide) (by decide),
   (getMHZxxMetricPWM_value sampleConfig 5 2000 (-1) 200000 200000 [(200000, PinLevel.LOW),
        (200010, PinLevel.HIGH), (200060, PinLevel.LOW), (201090, PinLevel.LOW)]
      ⟨Stage.MH_ZXX_STAGE_COUNT_FOR_LOW, ResultCode.DEVICE_ERROR_TIMEOUT, 50, 200060⟩
      [Event.millis 200000, Event.digitalRead 5 PinLevel.LOW,
       Event.millis 200010, Event.digitalRead 5 PinLevel.HIGH,
       Event.millis 200060, Event.digitalRead 5 PinLevel.LOW,
       Event.millis 201090, Event.digitalRead 5 PinLevel.LOW]
      (by decide) (by decide) (by decide)).2 (by decide)⟩

/-- C9, the code at the failing inputs: four runs in which the cycle budget elapses in
`WAIT_FOR_LOW`, `WAIT_FOR_HIGH`, `COUNT_FOR_HIGH` and `COUNT_FOR_LOW`. The loop leaves the
tentative status `DEVICE_ERROR_ACK_L`, `DEVICE_ERROR_ACK_H`, `DEVICE_ERROR_TIMEOUT`,
`DEVICE_ERROR_TIMEOUT` in `rc`, and each call returns `RESULT_IS_UNSIGNED_VALUE`. -/
theorem pwm_stuck_stage_reported_as_success :
    (pwmLoop sampleConfig.MH_ZXX_CYCLE_TIME 200000 5 [(200000, PinLevel.HIGH),
        (200500, PinLevel.HIGH), (201004, PinLevel.HIGH)] pwmInit).map Prod.fst
      = some ⟨Stage.MH_ZXX_STAGE_WAIT_FOR_LOW, ResultCode.DEVICE_ERROR_ACK_L, 0, 0⟩
    ∧ (getMHZxxMetricPWM sampleConfig 5 2000 (-1) 200000 200000 [(200000, PinLevel.HIGH),
        (200500, PinLevel.HIGH), (201004, PinLevel.HIGH)]).status
      = some ResultCode.RESULT_IS_UNSIGNED_VALUE
    ∧ (pwmLoop sampleConfig.MH_ZXX_CYCLE_TIME 200000 5 [(200000, PinLevel.HIGH),
        (200500, PinLevel.LOW), (201004, PinLevel.LOW)] pwmInit).map Prod.fst
      = some ⟨Stage.MH_ZXX_STAGE_WAIT_FOR_HIGH, ResultCode.DEVICE_ERROR_ACK_H, 0, 0⟩
    ∧ (getMHZxxMetricPWM sampleConfig 5 2000 (-1) 200000 200000 [(200000, PinLevel.HIGH),
        (200500, PinLevel.LOW), (201004, PinLevel.LOW)]).status
      = some ResultCode.RESULT_IS_UNSIGNED_VALUE
    ∧ (pwmLoop sampleConfig.MH_ZXX_CYCLE_TIME 200000 5 [(200000, PinLevel.LOW),
        (200500, PinLevel.HIGH), (201004, PinLevel.HIGH)] pwmInit).map Prod.fst
      = some ⟨Stage.MH_ZXX_STAGE_COUNT_FOR_HIGH, ResultCode.DEVICE_ERROR_TIMEOUT, 200500, 0⟩
    ∧ (getMHZxxMetricPWM sampleConfig 5 2000 (-1) 200000 200000 [(200000, PinLevel.LOW),
        (200500, PinLevel.HIGH), (201004, PinLevel.HIGH)]).status
      = some ResultCode.RESULT_IS_UNSIGNED_VALUE
    ∧ (pwmLoop sampleConfig.MH_ZXX_CYCLE_TIME 200000 5 [(200000, PinLevel.LOW),
        (200500, PinLevel.HIGH), (200700, PinLevel.LOW), (201004, PinLevel.LOW)] pwmInit).map
        Prod.fst
      = some ⟨Stage.MH_ZXX_STAGE_COUNT_FOR_LOW, ResultCode.DEVICE_ERROR_TIMEOUT, 200, 200700⟩
    ∧ (getMHZxxMetricPWM sampleConfig 5 2000 (-1) 200000 200000 [(200000, PinLevel.LOW),
        (200500, PinLevel.HIGH), (200700, PinLevel.LOW), (201004, PinLevel.LOW)]).status
      = some ResultCode.RESULT_IS_UNSIGNED_VALUE := by
  refine ⟨by decide, by decide, by decide, by decide, by decide, by decide, by decide,
    by decide⟩

/-- Counterexample to C10: every poll reads LOW until the budget has elapsed. The first poll
already moves the decoder to `WAIT_FOR_HIGH` with tentative status `DEVICE_ERROR_ACK_H`, and
the call returns `RESULT_IS_UNSIGNED_VALUE`, not `DEVICE_ERROR_ACK_L`. -/
theorem pwm_always_low_not_ack_l :
    (pwmLoop sampleConfig.MH_ZXX_CYCLE_TIME 200000 5 [(200000, PinLevel.LOW),
        (200400, PinLevel.LOW), (200800, PinLevel.LOW), (201200, PinLevel.LOW)] pwmInit).map
        Prod.fst
      = some ⟨Stage.MH_ZXX_STAGE_WAIT_FOR_HIGH, ResultCode.DEVICE_ERROR_ACK_H, 0, 0⟩
    ∧ (getMHZxxMetricPWM sampleConfig 5 2000 (-1) 200000 200000 [(200000, PinLevel.LOW),
        (200400, PinLevel.LOW), (200800, PinLevel.LOW), (201200, PinLevel.LOW)]).status
      = some ResultCode.RESULT_IS_UNSIGNED_VALUE
    ∧ (getMHZxxMetricPWM sampleConfig 5 2000 (-1) 200000 200000 [(200000, PinLevel.LOW),
        (200400, PinLevel.LOW), (200800, PinLevel.LOW), (201200, PinLevel.LOW)]).status
      ≠ some ResultCode.DEVICE_ERROR_ACK_L := by
  refine ⟨by decide, by decide, by decide⟩


/-- C10, amended: for every run past the warm-up deadline in which every poll reads LOW until
the cycle budget has elapsed, the call returns, the decoder stops in `WAIT_FOR_HIGH` with
tentative status `DEVICE_ERROR_ACK_H`, the value written is 0, and the periodic timer is
resumed: `startTimerOne` is called after `stopTimerOne` and after every poll. -/
theorem getMHZxxMetricPWM_always_low (cfg : Config) (pin range : Nat) (v : Int) (t0 tStart : Nat)
    (pre rest : List (Nat × PinLevel)) (tEnd : Nat)
    (hnow : t0 > cfg.MH_ZXX_PREHEAT_TIMEOUT)
    (hpre : ∀ p ∈ pre, p.2 = PinLevel.LOW ∧ sub32 p.1 tStart < cfg.MH_ZXX_CYCLE_TIME)
    (hend : ¬ sub32 tEnd tStart < cfg.MH_ZXX_CYCLE_TIME) :
    ∃ polled,
      pwmLoop cfg.MH_ZXX_CYCLE_TIME tStart pin (pre ++ (tEnd, PinLevel.LOW) :: rest) pwmInit
        = some (⟨Stage.MH_ZXX_STAGE_WAIT_FOR_HIGH, ResultCode.DEVICE_ERROR_ACK_H, 0, 0⟩, polled)
      ∧ (getMHZxxMetricPWM cfg pin range v t0 tStart
          (pre ++ (tEnd, PinLevel.LOW) :: rest)).written = some 0
      ∧ (getMHZxxMetricPWM cfg pin range v t0 tStart (pre ++ (tEnd, PinLevel.LOW) :: rest)).calls
        = [Event.pinMode pin PinDirection.INPUT_PULLUP, Event.millis t0, Event.stopTimerOne,
            Event.millis tStart] ++ polled ++ [Event.startTimerOne, Event.gatherSystemMetrics]
      ∧ Event.stopTimerOne ∉ polled ∧ Event.startTimerOne ∉ polled := by
  have hst : (pwmLoop cfg.MH_ZXX_CYCLE_TIME tStart pin (pre ++ (tEnd, PinLevel.LOW) :: rest)
      pwmInit).map Prod.fst
      = some ⟨Stage.MH_ZXX_STAGE_WAIT_FOR_HIGH, ResultCode.DEVICE_ERROR_ACK_H, 0, 0⟩ := by
    cases pre with
    | nil =>
      rw [List.nil_append, pwmLoop_cons_elapsed cfg.MH_ZXX_CYCLE_TIME tStart pin
        (tEnd, PinLevel.LOW) rest pwmInit
        ⟨Stage.MH_ZXX_STAGE_WAIT_FOR_HIGH, ResultCode.DEVICE_ERROR_ACK_H, 0, 0⟩
        (by simp [pwmSwitch, pwmInit]) hend]
      rfl
    | cons p pre =>
      have hp := hpre p (List.mem_cons_self _ _)
      rw [List.cons_append, pwmLoop_step cfg.MH_ZXX_CYCLE_TIME tStart pin p _ pwmInit
        ⟨Stage.MH_ZXX_STAGE_WAIT_FOR_HIGH, ResultCode.DEVICE_ERROR_ACK_H, 0, 0⟩
        (by simp [pwmSwitch, pwmInit, hp.1]) hp.2]
      exact pwmLoop_low_stuck cfg.MH_ZXX_CYCLE_TIME tStart pin pre rest tEnd
        (fun q hq => hpre q (List.mem_cons_of_mem _ hq)) hend
  obtain ⟨polled, hl⟩ := loop_some_of_map _ _ hst
  have hev := pwmLoop_polled cfg.MH_ZXX_CYCLE_TIME tStart pin _ _ _ _ hl
  refine ⟨polled, hl, ?_, ?_, ?_, ?_⟩
  · rw [getMHZxxMetricPWM_of_loop cfg pin range v t0 tStart _ _ polled hnow hl]
    rfl
  · rw [getMHZxxMetricPWM_of_loop cfg pin range v t0 tStart _ _ polled hnow hl]
    rfl
  · intro h
    rcases hev _ h with ⟨t, ht⟩ | ⟨l, hl'⟩
    · exact Event.noConfusion ht
    · exact Event.noConfusion hl'
  · intro h
    rcases hev _ h with ⟨t, ht⟩ | ⟨l, hl'⟩
    · exact Event.noConfusion ht
    · exact Event.noConfusion hl'

/-- Witness of the amended C10: three polls reading LOW, the third past the budget. -/
theorem getMHZxxMetricPWM_always_low_witness :
    ∃ polled,
      pwmLoop sampleConfig.MH_ZXX_CYCLE_TIME 200000 5
          ([(200000, PinLevel.LOW), (200500, PinLevel.LOW)] ++ (201004, PinLevel.LOW) :: [])
          pwmInit
        = some (⟨Stage.MH_ZXX_STAGE_WAIT_FOR_HIGH, ResultCode.DEVICE_ERROR_ACK_H, 0, 0⟩, polled)
      ∧ (getMHZxxMetricPWM sampleConfig 5 2000 (-1) 200000 200000
          ([(200000, PinLevel.LOW), (200500, PinLevel.LOW)] ++ (201004, PinLevel.LOW) :: [])).written
        = some 0
      ∧ (getMHZxxMetricPWM sampleConfig 5 2000 (-1) 200000 200000
          ([(200000, PinLevel.LOW), (200500, PinLevel.LOW)] ++ (201004, PinLevel.LOW) :: [])).calls
        = [Event.pinMode 5 PinDirection.INPUT_PULLUP, Event.millis 200000, Event.stopTimerOne,
            Event.millis 200000] ++ polled ++ [Event.startTimerOne, Event.gatherSystemMetrics]
      ∧ Event.stopTimerOne ∉ polled ∧ Event.startTimerOne ∉ polled :=
  getMHZxxMetricPWM_always_low sampleConfig 5 2000 (-1) 200000 200000
    [(200000, PinLevel.LOW), (200500, PinLevel.LOW)] [] 201004 (by decide) (by decide)
    (by decide)

/-! ## The warm-up bypass -/

/-- At or before the warm-up deadline the serial read touches nothing but the clock. -/
theorem uart_preheat (cfg : Config) (rxPin txPin : Nat) (v : Int) (now : Nat) (rx : List Nat)
    (hnow : now ≤ cfg.MH_ZXX_PREHEAT_TIMEOUT) :
    getMHZxxMetricUART cfg rxPin txPin v now rx =
      ⟨ResultCode.RESULT_IS_UNSIGNED_VALUE, cfg.MH_ZXX_PREHEAT_GAS_CONCENTRATION,
        [Event.serialConstruct rxPin txPin, Event.millis now, Event.gatherSystemMetrics,
          Event.serialDestroy, Event.serialDestroy]⟩ := by
  unfold getMHZxxMetricUART
  rw [if_neg (by omega)]
  rfl

/-- At or before the warm-up deadline the pulse read configures the pin and reads the clock. -/
theorem pwm_preheat (cfg : Config) (pin range : Nat) (v : Int) (t0 tStart : Nat)
    (polls : List (Nat × PinLevel)) (hnow : t0 ≤ cfg.MH_ZXX_PREHEAT_TIMEOUT) :
    getMHZxxMetricPWM cfg pin range v t0 tStart polls =
      Run.returned ⟨ResultCode.RESULT_IS_UNSIGNED_VALUE, cfg.MH_ZXX_PREHEAT_GAS_CONCENTRATION,
        [Event.pinMode pin PinDirection.INPUT_PULLUP, Event.millis t0]⟩ := by
  unfold getMHZxxMetricPWM
  rw [if_neg (by omega)]

/-- Counterexample to C11: `getMAX6675Metric` never reads the clock and has no warm-up
bypass; whatever the time, it reads the bus and answers with the decoded register (here
145.50 degrees, not the nominal value 399) or with a failure status. -/
theorem max6675_ignores_warmup :
    (getMAX6675Metric sampleConfig 12 13 10 sampleConfig.SENS_READ_TEMP (-1) 0x12 0x30).rc
      = ResultCode.RESULT_IS_FLOAT_02_DIGIT
    ∧ (getMAX6675Metric sampleConfig 12 13 10 sampleConfig.SENS_READ_TEMP (-1) 0x12 0x30).value = 14550
    ∧ sampleConfig.MH_ZXX_PREHEAT_GAS_CONCENTRATION = 399
    ∧ Event.spiReadByte 0x12
        ∈ (getMAX6675Metric sampleConfig 12 13 10 sampleConfig.SENS_READ_TEMP (-1) 0x12 0x30).trace
    ∧ (getMAX6675Metric sampleConfig 12 13 10 sampleConfig.SENS_READ_TEMP (-1) 0x82 0x34).rc
      = ResultCode.DEVICE_ERROR_WRONG_ID := by
  refine ⟨by decide, by decide, by decide, by decide, by decide⟩

/-- C11, amended: whenever the current time is before the warm-up deadline, each of the two
MH-Zxx acquisition methods (UART and PWM) returns `RESULT_IS_UNSIGNED_VALUE` with the nominal
value; the UART call makes no serial call other than constructing and destroying the port
and the PWM call only configures the pin, so no pin and no serial data is read.
`getMAX6675Metric` is outside the bypass: it never reads the clock, whatever its arguments,
and with the supported metric kind it reads both bytes from the bus on every call. -/
theorem mhzxx_before_warmup (cfg : Config) (now : Nat)
    (hnow : now < cfg.MH_ZXX_PREHEAT_TIMEOUT) :
    (∀ (rxPin txPin : Nat) (v : Int) (rx : List Nat),
      getMHZxxMetricUART cfg rxPin txPin v now rx =
        ⟨ResultCode.RESULT_IS_UNSIGNED_VALUE, cfg.MH_ZXX_PREHEAT_GAS_CONCENTRATION,
          [Event.serialConstruct rxPin txPin, Event.millis now, Event.gatherSystemMetrics,
            Event.serialDestroy, Event.serialDestroy]⟩)
    ∧ (∀ (pin range : Nat) (v : Int) (tStart : Nat) (polls : List (Nat × PinLevel)),
      getMHZxxMetricPWM cfg pin range v now tStart polls =
        Run.returned ⟨ResultCode.RESULT_IS_UNSIGNED_VALUE,
          cfg.MH_ZXX_PREHEAT_GAS_CONCENTRATION,
          [Event.pinMode pin PinDirection.INPUT_PULLUP, Event.millis now]⟩)
    ∧ (∀ (misoPin sclkPin csPin metric : Nat) (v : Int) (b1 b2 : Nat),
      (∀ t : Nat,
        Event.millis t ∉ (getMAX6675Metric cfg misoPin sclkPin csPin metric v b1 b2).trace)
      ∧ (metric = cfg.SENS_READ_TEMP →
        Event.spiReadByte b1 ∈ (getMAX6675Metric cfg misoPin sclkPin csPin metric v b1 b2).trace
        ∧ Event.spiReadByte b2
            ∈ (getMAX6675Metric cfg misoPin sclkPin csPin metric v b1 b2).trace)) := by
  refine ⟨?_, ?_, ?_⟩
  · intro rxPin txPin v rx
    exact uart_preheat cfg rxPin txPin v now rx (by omega)
  · intro pin range v tStart polls
    exact pwm_preheat cfg pin range v now tStart polls (by omega)
  · intro misoPin sclkPin csPin metric v b1 b2
    constructor
    · intro t
      simp only [getMAX6675Metric]
      split_ifs <;> simp
    · intro hm
      subst hm
      simp only [getMAX6675Metric, ne_eq, not_true_eq_false, if_false]
      split_ifs <;> simp

/-- Witness of the amended C11: 100 ms after start-up, with the sample configuration. -/
theorem mhzxx_before_warmup_witness :
    100 < sampleConfig.MH_ZXX_PREHEAT_TIMEOUT
    ∧ getMHZxxMetricUART sampleConfig 2 3 (-1) 100 [0xFF, 0x86, 0x01, 0x2C, 0, 0, 0, 0, 0x4D] =
        ⟨ResultCode.RESULT_IS_UNSIGNED_VALUE, 399,
          [Event.serialConstruct 2 3, Event.millis 100, Event.gatherSystemMetrics,
            Event.serialDestroy, Event.serialDestroy]⟩
    ∧ getMHZxxMetricPWM sampleConfig 5 2000 (-1) 100 100 [(100, PinLevel.LOW)] =
        Run.returned ⟨ResultCode.RESULT_IS_UNSIGNED_VALUE, 399,
          [Event.pinMode 5 PinDirection.INPUT_PULLUP, Event.millis 100]⟩
    ∧ Event.spiReadByte 0x12
        ∈ (getMAX6675Metric sampleConfig 12 13 10 1 (-1) 0x12 0x30).trace :=
  ⟨by decide,
    (mhzxx_before_warmup sampleConfig 100 (by decide)).1 2 3 (-1)
      [0xFF, 0x86, 0x01, 0x2C, 0, 0, 0, 0, 0x4D],
    (mhzxx_before_warmup sampleConfig 100 (by decide)).2.1 5 2000 (-1) 100
      [(100, PinLevel.LOW)],
    (((mhzxx_before_warmup sampleConfig 100 (by decide)).2.2 12 13 10 1 (-1) 0x12 0x30).2
      (by decide)).1⟩

/-- C12: for `getMHZxxMetricUART` and `getMHZxxMetricPWM` and every clock value not greater than
`MH_ZXX_PREHEAT_TIMEOUT` (the deadline instant included), the call returns
`RESULT_IS_UNSIGNED_VALUE` with `MH_ZXX_PREHEAT_GAS_CONCENTRATION` and performs no serial
begin, flush, send or receive, no `digitalRead` and no `stopTimerOne`. -/
theorem mhzxx_preheat_no_bus (cfg : Config) (now : Nat)
    (hnow : now ≤ cfg.MH_ZXX_PREHEAT_TIMEOUT) :
    (∀ (rxPin txPin : Nat) (v : Int) (rx : List Nat),
      (getMHZxxMetricUART cfg rxPin txPin v now rx).rc = ResultCode.RESULT_IS_UNSIGNED_VALUE
      ∧ (getMHZxxMetricUART cfg rxPin txPin v now rx).value
          = cfg.MH_ZXX_PREHEAT_GAS_CONCENTRATION
      ∧ Event.serialBegin ∉ (getMHZxxMetricUART cfg rxPin txPin v now rx).trace
      ∧ Event.flushStreamRXBuffer ∉ (getMHZxxMetricUART cfg rxPin txPin v now rx).trace
      ∧ (∀ bytes, Event.serialSend bytes ∉ (getMHZxxMetricUART cfg rxPin txPin v now rx).trace)
      ∧ (∀ len, Event.serialRecive len ∉ (getMHZxxMetricUART cfg rxPin txPin v now rx).trace))
    ∧ (∀ (pin range : Nat) (v : Int) (tStart : Nat) (polls : List (Nat × PinLevel)),
      (getMHZxxMetricPWM cfg pin range v now tStart polls).status
          = some ResultCode.RESULT_IS_UNSIGNED_VALUE
      ∧ (getMHZxxMetricPWM cfg pin range v now tStart polls).written
          = some cfg.MH_ZXX_PREHEAT_GAS_CONCENTRATION
      ∧ (∀ p l, Event.digitalRead p l
          ∉ (getMHZxxMetricPWM cfg pin range v now tStart polls).calls)
      ∧ Event.stopTimerOne ∉ (getMHZxxMetricPWM cfg pin range v now tStart polls).calls
      ∧ Event.startTimerOne ∉ (getMHZxxMetricPWM cfg pin range v now tStart polls).calls) := by
  constructor
  · intro rxPin txPin v rx
    rw [uart_preheat cfg rxPin txPin v now rx hnow]
    simp
  · intro pin range v tStart polls
    rw [pwm_preheat cfg pin range v now tStart polls hnow]
    simp [Run.status, Run.written, Run.calls]

/-- Witness of C12: the deadline instant itself, with the sample configuration. -/
theorem mhzxx_preheat_no_bus_witness :
    180000 ≤ sampleConfig.MH_ZXX_PREHEAT_TIMEOUT
    ∧ (getMHZxxMetricUART sampleConfig 2 3 (-1) 180000
        [0xFF, 0x86, 0x01, 0x2C, 0, 0, 0, 0, 0x4D]).value = 399
    ∧ (getMHZxxMetricPWM sampleConfig 5 2000 (-1) 180000 180000
        [(180000, PinLevel.LOW)]).written = some 399 :=
  ⟨by decide,
    ((mhzxx_preheat_no_bus sampleConfig 180000 (by decide)).1 2 3 (-1)
      [0xFF, 0x86, 0x01, 0x2C, 0, 0, 0, 0, 0x4D]).2.1,
    ((mhzxx_preheat_no_bus sampleConfig 180000 (by decide)).2 5 2000 (-1) 180000
      [(180000, PinLevel.LOW)]).2.1⟩

/-! ## The result contract -/

/-- Every return of the pulse read carries `RESULT_IS_UNSIGNED_VALUE`, and the value it leaves
in the output slot does not depend on what the slot held. -/
theorem pwm_returns_success (cfg : Config) (pin range : Nat) (v v' : Int) (t0 tStart : Nat)
    (polls : List (Nat × PinLevel)) (r : MetricResult)
    (h : getMHZxxMetricPWM cfg pin range v t0 tStart polls = Run.returned r) :
    r.rc = ResultCode.RESULT_IS_UNSIGNED_VALUE
    ∧ getMHZxxMetricPWM cfg pin range v' t0 tStart polls = Run.returned r := by
  by_cases hnow : t0 > cfg.MH_ZXX_PREHEAT_TIMEOUT
  · cases hl : pwmLoop cfg.MH_ZXX_CYCLE_TIME tStart pin polls pwmInit with
    | none =>
      unfold getMHZxxMetricPWM at h
      simp [if_pos hnow, hl] at h
    | some x =>
      obtain ⟨st, polled⟩ := x
      rw [getMHZxxMetricPWM_of_loop cfg pin range v t0 tStart polls st polled hnow hl] at h
      rw [getMHZxxMetricPWM_of_loop cfg pin range v' t0 tStart polls st polled hnow hl]
      split_ifs at h ⊢
      · rw [Run.returned.injEq] at h
        subst h
        exact ⟨rfl, rfl⟩
      · rw [Run.returned.injEq] at h
        subst h
        exact ⟨rfl, rfl⟩
  · rw [pwm_preheat cfg pin range v t0 tStart polls (by omega)] at h
    rw [pwm_preheat cfg pin range v' t0 tStart polls (by omega)]
    rw [Run.returned.injEq] at h
    subst h
    exact ⟨rfl, rfl⟩

/-- The result contract on the calls that return: the returned status is one status code, the
same whatever the output slot held; on every failure return the slot still holds the value
it had before the call, and on every success return the slot holds a value that the call
produced (it does not depend on what the slot held). The serial read and the bus read always
return; of the pulse read this covers the runs that return, each of them a success return
that wrote the slot. -/
theorem value_written_iff_success (cfg : Config) (v v' : Int) :
    (∀ (rxPin txPin now : Nat) (rx : List Nat),
      (getMHZxxMetricUART cfg rxPin txPin v now rx).rc
          ∈ [ResultCode.RESULT_IS_UNSIGNED_VALUE, ResultCode.DEVICE_ERROR_TIMEOUT,
              ResultCode.DEVICE_ERROR_WRONG_ANSWER, ResultCode.DEVICE_ERROR_CHECKSUM]
      ∧ (getMHZxxMetricUART cfg rxPin txPin v' now rx).rc
          = (getMHZxxMetricUART cfg rxPin txPin v now rx).rc
      ∧ (isSuccess (getMHZxxMetricUART cfg rxPin txPin v now rx).rc = false →
          (getMHZxxMetricUART cfg rxPin txPin v now rx).value = v)
      ∧ (isSuccess (getMHZxxMetricUART cfg rxPin txPin v now rx).rc = true →
          (getMHZxxMetricUART cfg rxPin txPin v' now rx).value
            = (getMHZxxMetricUART cfg rxPin txPin v now rx).value))
    ∧ (∀ (misoPin sclkPin csPin metric b1 b2 : Nat),
      (getMAX6675Metric cfg misoPin sclkPin csPin metric v b1 b2).rc
          ∈ [ResultCode.RESULT_IS_FLOAT_02_DIGIT, ResultCode.RESULT_IS_FAIL,
              ResultCode.DEVICE_ERROR_WRONG_ID, ResultCode.DEVICE_ERROR_CONNECT]
      ∧ (getMAX6675Metric cfg misoPin sclkPin csPin metric v' b1 b2).rc
          = (getMAX6675Metric cfg misoPin sclkPin csPin metric v b1 b2).rc
      ∧ (isSuccess (getMAX6675Metric cfg misoPin sclkPin csPin metric v b1 b2).rc = false →
          (getMAX6675Metric cfg misoPin sclkPin csPin metric v b1 b2).value = v)
      ∧ (isSuccess (getMAX6675Metric cfg misoPin sclkPin csPin metric v b1 b2).rc = true →
          (getMAX6675Metric cfg misoPin sclkPin csPin metric v' b1 b2).value
            = (getMAX6675Metric cfg misoPin sclkPin csPin metric v b1 b2).value))
    ∧ (∀ (pin range t0 tStart : Nat) (polls : List (Nat × PinLevel)) (r : MetricResult),
      getMHZxxMetricPWM cfg pin range v t0 tStart polls = Run.returned r →
        isSuccess r.rc = true
        ∧ (getMHZxxMetricPWM cfg pin range v' t0 tStart polls).status = some r.rc
        ∧ (getMHZxxMetricPWM cfg pin range v' t0 tStart polls).written = some r.value) := by
  refine ⟨?_, ?_, ?_⟩
  · intro rxPin txPin now rx
    simp only [getMHZxxMetricUART]
    split_ifs <;> simp [isSuccess]
  · intro misoPin sclkPin csPin metric b1 b2
    simp only [getMAX6675Metric]
    split_ifs <;> simp [isSuccess]
  · intro pin range t0 tStart polls r h
    obtain ⟨hrc, h'⟩ := pwm_returns_success cfg pin range v v' t0 tStart polls r h
    rw [h']
    exact ⟨by rw [hrc]; decide, rfl, rfl⟩

/-- The result contract at work: a checksum failure and a wrong-identifier failure leave the
slot at -1; successful reads and a timed-out pulse read overwrite it. -/
theorem value_written_iff_success_witness :
    (getMHZxxMetricUART sampleConfig 2 3 (-1) 200000
        [0xFF, 0x86, 0x01, 0x2C, 0, 0, 0, 0, 0x00]).value = -1
    ∧ (getMHZxxMetricUART sampleConfig 2 3 7 200000
        [0xFF, 0x86, 0x01, 0x2C, 0, 0, 0, 0, 0x4D]).value
      = (getMHZxxMetricUART sampleConfig 2 3 (-1) 200000
          [0xFF, 0x86, 0x01, 0x2C, 0, 0, 0, 0, 0x4D]).value
    ∧ (getMAX6675Metric sampleConfig 12 13 10 1 (-1) 0x82 0x34).value = -1
    ∧ (getMAX6675Metric sampleConfig 12 13 10 1 7 0x12 0x30).value
      = (getMAX6675Metric sampleConfig 12 13 10 1 (-1) 0x12 0x30).value
    ∧ (getMHZxxMetricPWM sampleConfig 5 2000 7 200000 200000 [(200000, PinLevel.HIGH),
        (201004, PinLevel.HIGH)]).written = some 0 :=
  ⟨((value_written_iff_success sampleConfig (-1) 7).1 2 3 200000
      [0xFF, 0x86, 0x01, 0x2C, 0, 0, 0, 0, 0x00]).2.2.1 (by decide),
   ((value_written_iff_success sampleConfig (-1) 7).1 2 3 200000
      [0xFF, 0x86, 0x01, 0x2C, 0, 0, 0, 0, 0x4D]).2.2.2 (by decide),
   ((value_written_iff_success sampleConfig (-1) 7).2.1 12 13 10 1 0x82 0x34).2.2.1 (by decide),
   ((value_written_iff_success sampleConfig (-1) 7).2.1 12 13 10 1 0x12 0x30).2.2.2 (by decide),
   ((value_written_iff_success sampleConfig (-1) 7).2.2 5 2000 200000 200000
      [(200000, PinLevel.HIGH), (201004, PinLevel.HIGH)]
      ⟨ResultCode.RESULT_IS_UNSIGNED_VALUE, 0,
        [Event.pinMode 5 PinDirection.INPUT_PULLUP, Event.millis 200000, Event.stopTimerOne,
          Event.millis 200000, Event.millis 200000, Event.digitalRead 5 PinLevel.HIGH,
          Event.millis 201004, Event.digitalRead 5 PinLevel.HIGH, Event.startTimerOne,
          Event.gatherSystemMetrics]⟩ (by decide)).2.2⟩

/-! ## Cleanup -/

/-- The shape of the trace of a pulse read that returns: either the warm-up bypass, or
`stopTimerOne`, the clock, the polls, `startTimerOne`. -/
theorem pwm_trace_shape (cfg : Config) (pin range : Nat) (v : Int) (t0 tStart : Nat)
    (polls : List (Nat × PinLevel)) (r : MetricResult)
    (h : getMHZxxMetricPWM cfg pin range v t0 tStart polls = Run.returned r) :
    (t0 ≤ cfg.MH_ZXX_PREHEAT_TIMEOUT
      ∧ r.trace = [Event.pinMode pin PinDirection.INPUT_PULLUP, Event.millis t0])
    ∨ (t0 > cfg.MH_ZXX_PREHEAT_TIMEOUT ∧ ∃ st polled,
        pwmLoop cfg.MH_ZXX_CYCLE_TIME tStart pin polls pwmInit = some (st, polled)
        ∧ r.trace = [Event.pinMode pin PinDirection.INPUT_PULLUP, Event.millis t0,
            Event.stopTimerOne, Event.millis tStart] ++ polled
            ++ [Event.startTimerOne, Event.gatherSystemMetrics]) := by
  by_cases hnow : t0 > cfg.MH_ZXX_PREHEAT_TIMEOUT
  · right
    refine ⟨hnow, ?_⟩
    cases hl : pwmLoop cfg.MH_ZXX_CYCLE_TIME tStart pin polls pwmInit with
    | none =>
      unfold getMHZxxMetricPWM at h
      simp [if_pos hnow, hl] at h
    | some x =>
      obtain ⟨st, polled⟩ := x
      rw [getMHZxxMetricPWM_of_loop cfg pin range v t0 tStart polls st polled hnow hl] at h
      refine ⟨st, polled, rfl, ?_⟩
      split_ifs at h
      · rw [Run.returned.injEq] at h
        subst h
        rfl
      · rw [Run.returned.injEq] at h
        subst h
        rfl
  · left
    rw [pwm_preheat cfg pin range v t0 tStart polls (by omega)] at h
    rw [Run.returned.injEq] at h
    subst h
    exact ⟨by omega, rfl⟩

/-- Cleanup on the calls that return: in every execution of `getMAX6675Metric` the last call
is `digitalWrite(_csPin, HIGH)`, so the last write to the select pin is HIGH. In every
execution of `getMHZxxMetricPWM` that returns, `stopTimerOne` and `startTimerOne` are called
equally often (once each, or not at all in the warm-up bypass), the stop is followed by the
start before the return, and every pin poll lies between the two. -/
theorem cleanup_on_every_exit (cfg : Config) :
    (∀ (misoPin sclkPin csPin metric : Nat) (v : Int) (b1 b2 : Nat),
      (getMAX6675Metric cfg misoPin sclkPin csPin metric v b1 b2).trace.getLast?
        = some (Event.digitalWrite csPin PinLevel.HIGH))
    ∧ (∀ (pin range : Nat) (v : Int) (t0 tStart : Nat) (polls : List (Nat × PinLevel))
        (r : MetricResult),
      getMHZxxMetricPWM cfg pin range v t0 tStart polls = Run.returned r →
        r.trace.count Event.stopTimerOne = r.trace.count Event.startTimerOne
        ∧ r.trace.count Event.stopTimerOne ≤ 1
        ∧ (r.trace = [Event.pinMode pin PinDirection.INPUT_PULLUP, Event.millis t0]
          ∨ ∃ polled,
            r.trace = [Event.pinMode pin PinDirection.INPUT_PULLUP, Event.millis t0,
              Event.stopTimerOne, Event.millis tStart] ++ polled
              ++ [Event.startTimerOne, Event.gatherSystemMetrics]
            ∧ ∀ e ∈ polled, (∃ t, e = Event.millis t) ∨ (∃ l, e = Event.digitalRead pin l))) := by
  constructor
  · intro misoPin sclkPin csPin metric v b1 b2
    simp only [getMAX6675Metric]
    split_ifs <;> simp
  · intro pin range v t0 tStart polls r h
    rcases pwm_trace_shape cfg pin range v t0 tStart polls r h with ⟨_, htr⟩ | ⟨_, st, polled, hl, htr⟩
    · rw [htr]
      exact ⟨by simp [List.count_cons], by simp [List.count_cons], Or.inl rfl⟩
    · have hev := pwmLoop_polled cfg.MH_ZXX_CYCLE_TIME tStart pin polls pwmInit st polled hl
      have hstop : polled.count Event.stopTimerOne = 0 := by
        rw [List.count_eq_zero]
        intro hm
        rcases hev _ hm with ⟨t, ht⟩ | ⟨l, hl'⟩
        · exact Event.noConfusion ht
        · exact Event.noConfusion hl'
      have hstart : polled.count Event.startTimerOne = 0 := by
        rw [List.count_eq_zero]
        intro hm
        rcases hev _ hm with ⟨t, ht⟩ | ⟨l, hl'⟩
        · exact Event.noConfusion ht
        · exact Event.noConfusion hl'
      have c1 : r.trace.count Event.stopTimerOne = 1 := by
        rw [htr]
        simp [List.count_append, List.count_cons, hstop]
      have c2 : r.trace.count Event.startTimerOne = 1 := by
        rw [htr]
        simp [List.count_append, List.count_cons, hstart]
      exact ⟨by rw [c1, c2], by omega, Or.inr ⟨polled, htr, hev⟩⟩

/-- Cleanup at work: an unsupported metric kind on the bus reader, and a pulse read whose
cycle budget elapses in `WAIT_FOR_LOW`. -/
theorem cleanup_on_every_exit_witness :
    (getMAX6675Metric sampleConfig 12 13 10 0 (-1) 0 0).trace.getLast?
      = some (Event.digitalWrite 10 PinLevel.HIGH)
    ∧ List.count Event.stopTimerOne
        [Event.pinMode 5 PinDirection.INPUT_PULLUP, Event.millis 200000, Event.stopTimerOne,
          Event.millis 200000, Event.millis 200000, Event.digitalRead 5 PinLevel.HIGH,
          Event.millis 201004, Event.digitalRead 5 PinLevel.HIGH, Event.startTimerOne,
          Event.gatherSystemMetrics]
      = List.count Event.startTimerOne
        [Event.pinMode 5 PinDirection.INPUT_PULLUP, Event.millis 200000, Event.stopTimerOne,
          Event.millis 200000, Event.millis 200000, Event.digitalRead 5 PinLevel.HIGH,
          Event.millis 201004, Event.digitalRead 5 PinLevel.HIGH, Event.startTimerOne,
          Event.gatherSystemMetrics] :=
  ⟨(cleanup_on_every_exit sampleConfig).1 12 13 10 0 (-1) 0 0,
   ((cleanup_on_every_exit sampleConfig).2 5 2000 (-1) 200000 200000
      [(200000, PinLevel.HIGH), (201004, PinLevel.HIGH)]
      ⟨ResultCode.RESULT_IS_UNSIGNED_VALUE, 0,
        [Event.pinMode 5 PinDirection.INPUT_PULLUP, Event.millis 200000, Event.stopTimerOne,
          Event.millis 200000, Event.millis 200000, Event.digitalRead 5 PinLevel.HIGH,
          Event.millis 201004, Event.digitalRead 5 PinLevel.HIGH, Event.startTimerOne,
          Event.gatherSystemMetrics]⟩ (by decide)).1⟩

/-- C15: the request frame that `getMHZxxMetricUART` transmits is the 9 bytes
`0xFF, 0x01, command code, 0, 0, 0, 0, 0, 0x79`; every call past the warm-up deadline sends
exactly these bytes and no others; the literal check byte `0x79` is `crcMHZxx` of that frame with the
command code `0x86`, and of no such frame with another command code. -/
theorem request_frame_checksum :
    requestFrame = [0xFF, 0x01, MH_ZXX_CMD_GAS_CONCENTRATION, 0, 0, 0, 0, 0, 0x79]
    ∧ MH_ZXX_CMD_GAS_CONCENTRATION = 0x86
    ∧ byteAt requestFrame MH_ZXX_CRC = 0x79
    ∧ crcMHZxx requestFrame = 0x79
    ∧ (∀ c : Nat, c < 256 →
        (crcMHZxx [0xFF, 0x01, c, 0, 0, 0, 0, 0, 0x79] = 0x79 ↔ c = 0x86))
    ∧ (∀ (cfg : Config) (rxPin txPin : Nat) (v : Int) (now : Nat) (rx : List Nat),
        now > cfg.MH_ZXX_PREHEAT_TIMEOUT →
        Event.serialSend [0xFF, 0x01, 0x86, 0, 0, 0, 0, 0, 0x79]
          ∈ (getMHZxxMetricUART cfg rxPin txPin v now rx).trace
        ∧ ∀ bytes, Event.serialSend bytes ∈ (getMHZxxMetricUART cfg rxPin txPin v now rx).trace →
            bytes = [0xFF, 0x01, 0x86, 0, 0, 0, 0, 0, 0x79]) := by
  refine ⟨by decide, by decide, by decide, by decide, ?_, ?_⟩
  · intro c hc
    rw [crcMHZxx_frame]
    omega
  · intro cfg rxPin txPin v now rx hnow
    have hreq : requestFrame = [0xFF, 0x01, 0x86, 0, 0, 0, 0, 0, 0x79] := by decide
    simp only [getMHZxxMetricUART, if_pos hnow, hreq]
    split_ifs <;> simp

/-- Witness of C15: the frame sent by a call 200 s after start-up. -/
theorem request_frame_checksum_witness :
    200000 > sampleConfig.MH_ZXX_PREHEAT_TIMEOUT
    ∧ Event.serialSend [0xFF, 0x01, 0x86, 0, 0, 0, 0, 0, 0x79]
        ∈ (getMHZxxMetricUART sampleConfig 2 3 (-1) 200000 []).trace
    ∧ (crcMHZxx [0xFF, 0x01, 0x86, 0, 0, 0, 0, 0, 0x79] = 0x79 ↔ 0x86 = 0x86) :=
  ⟨by decide,
   (request_frame_checksum.2.2.2.2.2 sampleConfig 2 3 (-1) 200000 [] (by decide)).1,
   request_frame_checksum.2.2.2.2.1 0x86 (by decide)⟩

/-! ## Range of the MAX6675 value -/

/-- C20: whenever `getMAX6675Metric` returns success, the value written is 25 times a 12-bit
magnitude: a multiple of 25 between 0 and `4095 * 25 = 102375`, inside the range of the
signed 32-bit output slot. -/
theorem getMAX6675Metric_value_range (cfg : Config) (misoPin sclkPin csPin metric : Nat)
    (v : Int) (b1 b2 : Nat)
    (hok : isSuccess (getMAX6675Metric cfg misoPin sclkPin csPin metric v b1 b2).rc = true) :
    (∃ m : Nat, m ≤ 4095
        ∧ (getMAX6675Metric cfg misoPin sclkPin csPin metric v b1 b2).value = ((m * 25 : Nat) : Int))
    ∧ (getMAX6675Metric cfg misoPin sclkPin csPin metric v b1 b2).value % 25 = 0
    ∧ 0 ≤ (getMAX6675Metric cfg misoPin sclkPin csPin metric v b1 b2).value
    ∧ (getMAX6675Metric cfg misoPin sclkPin csPin metric v b1 b2).value ≤ 102375
    ∧ (getMAX6675Metric cfg misoPin sclkPin csPin metric v b1 b2).value < 2147483648 := by
  have hb1 : b1 % 256 < 256 := Nat.mod_lt _ (by decide)
  have hb2 : b2 % 256 < 256 := Nat.mod_lt _ (by decide)
  have hraw := raw_eq (b1 % 256) (b2 % 256) hb1 hb2
  rw [Nat.mod_mod, Nat.mod_mod] at hraw
  have hid : MAX6675_BITMASK_ID = 2 ^ 15 := by decide
  have key : ∃ m : Nat, m ≤ 4095
      ∧ (getMAX6675Metric cfg misoPin sclkPin csPin metric v b1 b2).value
        = ((m * 25 : Nat) : Int) := by
    simp only [getMAX6675Metric, hraw, hid] at hok ⊢
    split_ifs at hok ⊢ with h1 h2 h3
    · simp [isSuccess] at hok
    · simp [isSuccess] at hok
    · simp [isSuccess] at hok
    · have hbit : (256 * (b1 % 256) + b2 % 256).testBit 15 = false := by
        by_contra hb
        exact h2 ((and_mask_ne_zero _ _).mpr (by simpa using hb))
      have hlt : 256 * (b1 % 256) + b2 % 256 < 2 ^ 15 := by
        by_contra hge
        have hge' : 2 ^ 15 ≤ 256 * (b1 % 256) + b2 % 256 := by omega
        have : (256 * (b1 % 256) + b2 % 256).testBit 15 = true := by
          rw [Nat.testBit_to_div_mod]
          simp only [decide_eq_true_eq]
          omega
        rw [this] at hbit
        exact Bool.noConfusion hbit
      refine ⟨(256 * (b1 % 256) + b2 % 256) >>> 3, ?_, ?_⟩
      · rw [Nat.shiftRight_eq_div_pow]; omega
      · have hs : (256 * (b1 % 256) + b2 % 256) >>> 3 ≤ 4095 := by
          rw [Nat.shiftRight_eq_div_pow]; omega
        unfold toInt32 mul32
        rw [Nat.mod_mod, Nat.mod_eq_of_lt (by omega), if_pos (by omega)]
  obtain ⟨m, hm, hv⟩ := key
  refine ⟨⟨m, hm, hv⟩, ?_, ?_, ?_, ?_⟩ <;> rw [hv] <;> push_cast <;> omega

/-- Witness of C20: the largest register value that is accepted, `0x7FFB`. -/
theorem getMAX6675Metric_value_range_witness :
    (getMAX6675Metric sampleConfig 12 13 10 1 (-1) 0x7F 0xFB).value = 102375
    ∧ (getMAX6675Metric sampleConfig 12 13 10 1 (-1) 0x7F 0xFB).value % 25 = 0
    ∧ (getMAX6675Metric sampleConfig 12 13 10 1 (-1) 0x7F 0xFB).value ≤ 102375 :=
  ⟨by decide,
   (getMAX6675Metric_value_range sampleConfig 12 13 10 1 (-1) 0x7F 0xFB (by decide)).2.1,
   (getMAX6675Metric_value_range sampleConfig 12 13 10 1 (-1) 0x7F 0xFB (by decide)).2.2.2.1⟩

/-! ## Invariant and bound of the polling loop -/

/-- One pass through the `switch` keeps the stage or moves it to the next one. -/
theorem pwmSwitch_rank (st : PwmState) (t : Nat) (p : PinLevel) :
    (pwmSwitch st t p).1.stage = st.stage
    ∨ (pwmSwitch st t p).1.stage.rank = st.stage.rank + 1 := by
  obtain ⟨stage, rc, h, l⟩ := st
  cases stage <;> cases p <;> simp [pwmSwitch, Stage.rank]

/-- One pass through the `switch` keeps the stage and the tentative status paired. -/
theorem pwmSwitch_pairs (st : PwmState) (t : Nat) (p : PinLevel)
    (hst : (st.stage, st.rc) ∈ stagePairs) :
    ((pwmSwitch st t p).1.stage, (pwmSwitch st t p).1.rc) ∈ stagePairs := by
  obtain ⟨stage, rc, h, l⟩ := st
  simp only [stagePairs, List.mem_cons, Prod.mk.injEq, List.mem_singleton, List.not_mem_nil,
    or_false] at hst
  rcases hst with ⟨h1, h2⟩ | ⟨h1, h2⟩ | ⟨h1, h2⟩ | ⟨h1, h2⟩ | ⟨h1, h2⟩ <;> subst h1 <;>
    subst h2 <;> cases p <;> simp [pwmSwitch, stagePairs]

/-- The `goto finish` is taken only into `MH_ZXX_STAGE_CYCLE_FINISHED`. -/
theorem pwmSwitch_goto (st : PwmState) (t : Nat) (p : PinLevel)
    (h : (pwmSwitch st t p).2 = true) :
    (pwmSwitch st t p).1.stage = Stage.MH_ZXX_STAGE_CYCLE_FINISHED := by
  obtain ⟨stage, rc, hi, lo⟩ := st
  cases stage <;> cases p <;> simp [pwmSwitch] at h ⊢

/-- Without the `goto finish` an unfinished cycle stays unfinished. -/
theorem pwmSwitch_no_goto (st : PwmState) (t : Nat) (p : PinLevel)
    (hst : st.stage ≠ Stage.MH_ZXX_STAGE_CYCLE_FINISHED) (h : (pwmSwitch st t p).2 = false) :
    (pwmSwitch st t p).1.stage ≠ Stage.MH_ZXX_STAGE_CYCLE_FINISHED := by
  obtain ⟨stage, rc, hi, lo⟩ := st
  cases stage <;> cases p <;> simp [pwmSwitch] at h hst ⊢

/-- Polls taken one after the other. -/
theorem pwmFold_append (st : PwmState) (A B : List (Nat × PinLevel)) :
    pwmFold st (A ++ B) = pwmFold (pwmFold st A) B := by
  induction A generalizing st with
  | nil => rfl
  | cons a A ih => simp only [List.cons_append, pwmFold]; exact ih _

/-- The stage never moves backwards. -/
theorem pwmFold_rank (st : PwmState) (polls : List (Nat × PinLevel)) :
    st.stage.rank ≤ (pwmFold st polls).stage.rank := by
  induction polls generalizing st with
  | nil => exact le_refl _
  | cons p rest ih =>
    simp only [pwmFold]
    have h1 := ih (pwmSwitch st p.1 p.2).1
    rcases pwmSwitch_rank st p.1 p.2 with h | h
    · rw [h] at h1; exact h1
    · omega

/-- Stage and tentative status stay paired over any number of polls. -/
theorem pwmFold_pairs (st : PwmState) (polls : List (Nat × PinLevel))
    (hst : (st.stage, st.rc) ∈ stagePairs) :
    ((pwmFold st polls).stage, (pwmFold st polls).rc) ∈ stagePairs := by
  induction polls generalizing st with
  | nil => exact hst
  | cons p rest ih => exact ih _ (pwmSwitch_pairs st p.1 p.2 hst)

/-- The rank tells the stage. -/
theorem rank_injective (a b : Stage) (h : a.rank = b.rank) : a = b := by
  cases a <;> cases b <;> simp [Stage.rank] at h ⊢

/-- What a finished loop has done: it read the polls `before ++ [last]` and no more; every
poll of `before` was within the budget and left the cycle unfinished; the poll `last`
finished the cycle or was at or past the budget. -/
theorem pwmLoop_structure (cycleTime startTime pin : Nat) (polls : List (Nat × PinLevel))
    (st0 st : PwmState) (polled : List Event)
    (h0 : st0.stage ≠ Stage.MH_ZXX_STAGE_CYCLE_FINISHED)
    (h : pwmLoop cycleTime startTime pin polls st0 = some (st, polled)) :
    ∃ before last rest, polls = before ++ last :: rest
      ∧ polled = pollsEvents pin (before ++ [last])
      ∧ st = pwmFold st0 (before ++ [last])
      ∧ (∀ p ∈ before, sub32 p.1 startTime < cycleTime)
      ∧ (pwmFold st0 before).stage ≠ Stage.MH_ZXX_STAGE_CYCLE_FINISHED
      ∧ (st.stage = Stage.MH_ZXX_STAGE_CYCLE_FINISHED ∨ ¬ sub32 last.1 startTime < cycleTime) := by
  induction polls generalizing st0 st polled with
  | nil => simp [pwmLoop] at h
  | cons p rest ih =>
    simp only [pwmLoop] at h
    split_ifs at h with h1 h2
    · simp only [Option.some.injEq, Prod.mk.injEq] at h
      refine ⟨[], p, rest, rfl, ?_, ?_, ?_, h0, ?_⟩
      · rw [← h.2]; simp [pollsEvents]
      · rw [← h.1]; rfl
      · intro q hq; simp at hq
      · left; rw [← h.1]; exact pwmSwitch_goto st0 p.1 p.2 h1
    · cases hr : pwmLoop cycleTime startTime pin rest (pwmSwitch st0 p.1 p.2).1 with
      | none => rw [hr] at h; simp at h
      | some r =>
        obtain ⟨s2, tr2⟩ := r
        rw [hr] at h
        simp only [Option.map_some', Option.some.injEq, Prod.mk.injEq] at h
        have hflag : (pwmSwitch st0 p.1 p.2).2 = false := by simpa using h1
        obtain ⟨before, last, rest', hp, hev, hst, hb, hnf, hend⟩ :=
          ih (pwmSwitch st0 p.1 p.2).1 s2 tr2 (pwmSwitch_no_goto st0 p.1 p.2 h0 hflag) hr
        refine ⟨p :: before, last, rest', by rw [hp]; rfl, ?_, ?_, ?_, ?_, ?_⟩
        · rw [← h.2, hev]; rfl
        · rw [← h.1, hst]; rfl
        · intro q hq
          rcases List.mem_cons.mp hq with hq | hq
          · rw [hq]; exact h2
          · exact hb q hq
        · exact hnf
        · rw [← h.1]; exact hend
    · simp only [Option.some.injEq, Prod.mk.injEq] at h
      refine ⟨[], p, rest, rfl, ?_, ?_, ?_, h0, ?_⟩
      · rw [← h.2]; simp [pollsEvents]
      · rw [← h.1]; rfl
      · intro q hq; simp at hq
      · right; exact h2

/-- A poll at or past the budget ends the loop, if nothing ended it before. -/
theorem pwmLoop_terminates (cycleTime startTime pin : Nat) (A B : List (Nat × PinLevel))
    (q : Nat × PinLevel) (st0 : PwmState) (hq : ¬ sub32 q.1 startTime < cycleTime) :
    ∃ before last rest st, A ++ q :: B = before ++ last :: rest
      ∧ before.length ≤ A.length
      ∧ pwmLoop cycleTime startTime pin (A ++ q :: B) st0
          = some (st, pollsEvents pin (before ++ [last])) := by
  induction A generalizing st0 with
  | nil =>
    refine ⟨[], q, B, (pwmSwitch st0 q.1 q.2).1, rfl, le_refl _, ?_⟩
    simp only [List.nil_append, pwmLoop, hq, if_false]
    split_ifs <;> simp [pollsEvents]
  | cons a A ih =>
    by_cases h1 : (pwmSwitch st0 a.1 a.2).2 = true
    · refine ⟨[], a, A ++ q :: B, (pwmSwitch st0 a.1 a.2).1, rfl, Nat.zero_le _, ?_⟩
      simp [pwmLoop, h1, pollsEvents]
    · by_cases h2 : sub32 a.1 startTime < cycleTime
      · obtain ⟨before, last, rest, st, hp, hlen, hl⟩ := ih (pwmSwitch st0 a.1 a.2).1
        refine ⟨a :: before, last, rest, st, by rw [List.cons_append, hp]; rfl,
          by simp only [List.length_cons]; omega, ?_⟩
        have hflag : (pwmSwitch st0 a.1 a.2).2 = false := by simpa using h1
        have hsw : pwmSwitch st0 a.1 a.2 = ((pwmSwitch st0 a.1 a.2).1, false) :=
          Prod.ext rfl hflag
        rw [List.cons_append, pwmLoop_cons_within cycleTime startTime pin a _ st0 _ hsw h2, hl]
        rfl
      · refine ⟨[], a, A ++ q :: B, (pwmSwitch st0 a.1 a.2).1, rfl, Nat.zero_le _, ?_⟩
        simp [pwmLoop, h1, h2, pollsEvents]

/-- C16: invariant of the polling loop. After any number of polls the pair of stage and
tentative status is one of (WAIT_FOR_LOW, ACK_L), (WAIT_FOR_HIGH, ACK_H),
(COUNT_FOR_HIGH, TIMEOUT), (COUNT_FOR_LOW, TIMEOUT), (CYCLE_FINISHED, TIMEOUT); each poll
leaves the stage unchanged or advances it to its immediate successor; a stage that was left
is not entered again; and the locals with which the loop ends are those reached by the polls
it read. -/
theorem pwm_stage_invariant :
    (∀ polls : List (Nat × PinLevel),
      ((pwmFold pwmInit polls).stage, (pwmFold pwmInit polls).rc) ∈ stagePairs)
    ∧ (∀ (st : PwmState) (t : Nat) (p : PinLevel),
      (pwmSwitch st t p).1.stage = st.stage
      ∨ (pwmSwitch st t p).1.stage.rank = st.stage.rank + 1)
    ∧ (∀ A B C : List (Nat × PinLevel),
      (pwmFold pwmInit (A ++ B ++ C)).stage = (pwmFold pwmInit A).stage →
      (pwmFold pwmInit (A ++ B)).stage = (pwmFold pwmInit A).stage)
    ∧ (∀ (cycleTime startTime pin : Nat) (polls : List (Nat × PinLevel)) (st : PwmState)
        (polled : List Event),
      pwmLoop cycleTime startTime pin polls pwmInit = some (st, polled) →
      (st.stage, st.rc) ∈ stagePairs
      ∧ ∃ done rest, polls = done ++ rest ∧ done ≠ [] ∧ st = pwmFold pwmInit done
          ∧ polled = pollsEvents pin done) := by
  have hinit : (pwmInit.stage, pwmInit.rc) ∈ stagePairs := by decide
  refine ⟨fun polls => pwmFold_pairs pwmInit polls hinit, pwmSwitch_rank, ?_, ?_⟩
  · intro A B C h
    rw [pwmFold_append, pwmFold_append] at h
    rw [pwmFold_append]
    have h1 := pwmFold_rank (pwmFold pwmInit A) B
    have h2 := pwmFold_rank (pwmFold (pwmFold pwmInit A) B) C
    rw [h] at h2
    exact rank_injective _ _ (le_antisymm h2 h1)
  · intro cycleTime startTime pin polls st polled h
    obtain ⟨before, last, rest, hp, hev, hst, _, _, _⟩ :=
      pwmLoop_structure cycleTime startTime pin polls pwmInit st polled (by decide) h
    refine ⟨by rw [hst]; exact pwmFold_pairs pwmInit _ hinit, before ++ [last], rest, ?_, ?_,
      hst, hev⟩
    · rw [hp]; simp
    · simp

/-- Witness of C16: a run that goes through the first four stages and ends on the budget. -/
theorem pwm_stage_invariant_witness :
    ((pwmFold pwmInit [(200000, PinLevel.LOW), (200500, PinLevel.HIGH), (200700, PinLevel.LOW),
        (201004, PinLevel.LOW)]).stage,
      (pwmFold pwmInit [(200000, PinLevel.LOW), (200500, PinLevel.HIGH), (200700, PinLevel.LOW),
        (201004, PinLevel.LOW)]).rc) ∈ stagePairs
    ∧ ((⟨Stage.MH_ZXX_STAGE_COUNT_FOR_LOW, ResultCode.DEVICE_ERROR_TIMEOUT, 200, 200700⟩ :
          PwmState).stage,
        (⟨Stage.MH_ZXX_STAGE_COUNT_FOR_LOW, ResultCode.DEVICE_ERROR_TIMEOUT, 200, 200700⟩ :
          PwmState).rc) ∈ stagePairs :=
  ⟨pwm_stage_invariant.1 _,
   (pwm_stage_invariant.2.2.2 sampleConfig.MH_ZXX_CYCLE_TIME 200000 5
      [(200000, PinLevel.LOW), (200500, PinLevel.HIGH), (200700, PinLevel.LOW),
        (201004, PinLevel.LOW)]
      ⟨Stage.MH_ZXX_STAGE_COUNT_FOR_LOW, ResultCode.DEVICE_ERROR_TIMEOUT, 200, 200700⟩
      [Event.millis 200000, Event.digitalRead 5 PinLevel.LOW,
       Event.millis 200500, Event.digitalRead 5 PinLevel.HIGH,
       Event.millis 200700, Event.digitalRead 5 PinLevel.LOW,
       Event.millis 201004, Event.digitalRead 5 PinLevel.LOW] (by decide)).1⟩

/-- C17: the polling loop is bounded by the cycle budget. If some poll reads a clock value
with `nowTime - startTime >= MH_ZXX_CYCLE_TIME` (modulo `2^32`), the loop ends, having read
no poll after that one; this is the case whenever a clock reading reaches
`startTime + MH_ZXX_CYCLE_TIME`. A loop that ends has read the polls `before ++ [last]` only:
every poll of `before` was within the budget and left the cycle unfinished, and `last`
reached `MH_ZXX_STAGE_CYCLE_FINISHED` or was at or past the budget. -/
theorem pwm_loop_bounded (cycleTime startTime pin : Nat) :
    (∀ (A B : List (Nat × PinLevel)) (q : Nat × PinLevel),
      ¬ sub32 q.1 startTime < cycleTime →
      ∃ before last rest st, A ++ q :: B = before ++ last :: rest
        ∧ before.length ≤ A.length
        ∧ pwmLoop cycleTime startTime pin (A ++ q :: B) pwmInit
            = some (st, pollsEvents pin (before ++ [last])))
    ∧ (∀ polls : List (Nat × PinLevel),
      (∃ p ∈ polls, startTime + cycleTime ≤ p.1 ∧ p.1 < 4294967296) →
      (pwmLoop cycleTime startTime pin polls pwmInit).isSome = true)
    ∧ (∀ (polls : List (Nat × PinLevel)) (st : PwmState) (polled : List Event),
      pwmLoop cycleTime startTime pin polls pwmInit = some (st, polled) →
      ∃ before last rest, polls = before ++ last :: rest
        ∧ polled = pollsEvents pin (before ++ [last])
        ∧ st = pwmFold pwmInit (before ++ [last])
        ∧ (∀ p ∈ before, sub32 p.1 startTime < cycleTime)
        ∧ (pwmFold pwmInit before).stage ≠ Stage.MH_ZXX_STAGE_CYCLE_FINISHED
        ∧ (st.stage = Stage.MH_ZXX_STAGE_CYCLE_FINISHED
            ∨ ¬ sub32 last.1 startTime < cycleTime)) := by
  refine ⟨?_, ?_, ?_⟩
  · intro A B q hq
    exact pwmLoop_terminates cycleTime startTime pin A B q pwmInit hq
  · intro polls hex
    obtain ⟨p, hp, hge, hlt⟩ := hex
    obtain ⟨A, B, hsplit⟩ := List.append_of_mem hp
    have hq : ¬ sub32 p.1 startTime < cycleTime := by unfold sub32; omega
    obtain ⟨before, last, rest, st, _, _, hl⟩ :=
      pwmLoop_terminates cycleTime startTime pin A B p pwmInit hq
    rw [hsplit, hl]
    rfl
  · intro polls st polled h
    exact pwmLoop_structure cycleTime startTime pin polls pwmInit st polled (by decide) h

/-- Witness of C17: the third poll reaches the budget of 1004 ms; the loop ends there, with
three polls read and two more left unread. -/
theorem pwm_loop_bounded_witness :
    ¬ sub32 201004 200000 < 1004
    ∧ ∃ before last rest st,
        [(200000, PinLevel.HIGH), (200500, PinLevel.HIGH)] ++ (201004, PinLevel.HIGH) ::
            [(201005, PinLevel.LOW), (201006, PinLevel.HIGH)]
          = before ++ last :: rest
        ∧ before.length ≤ [(200000, PinLevel.HIGH), (200500, PinLevel.HIGH)].length
        ∧ pwmLoop 1004 200000 5
            ([(200000, PinLevel.HIGH), (200500, PinLevel.HIGH)] ++ (201004, PinLevel.HIGH) ::
              [(201005, PinLevel.LOW), (201006, PinLevel.HIGH)]) pwmInit
          = some (st, pollsEvents 5 (before ++ [last])) :=
  ⟨by decide,
   (pwm_loop_bounded 1004 200000 5).1 [(200000, PinLevel.HIGH), (200500, PinLevel.HIGH)]
     [(201005, PinLevel.LOW), (201006, PinLevel.HIGH)] (201004, PinLevel.HIGH) (by decide)⟩

/-! ## Range of the pulse value -/

/-- C18, the code at the failing inputs. The state machine completes a cycle with
`highTime = 1, lowTime = 3`: `highTime - 2` wraps to `2^32 - 1` and the divisor
`highTime + lowTime - 4` is zero, so the run ends in the division by zero. It completes a
cycle with `highTime = 3, lowTime = 0`: the divisor wraps to `2^32 - 1`. -/
theorem pwm_value_not_well_defined :
    (pwmLoop sampleConfig.MH_ZXX_CYCLE_TIME 200000 5 [(200000, PinLevel.LOW),
        (200010, PinLevel.HIGH), (200011, PinLevel.LOW), (200014, PinLevel.HIGH)] pwmInit).map
        Prod.fst
      = some ⟨Stage.MH_ZXX_STAGE_CYCLE_FINISHED, ResultCode.DEVICE_ERROR_TIMEOUT, 1, 3⟩
    ∧ sub32 1 2 = 4294967295
    ∧ sub32 (add32 1 3) 4 = 0
    ∧ (getMHZxxMetricPWM sampleConfig 5 2000 (-1) 200000 200000 [(200000, PinLevel.LOW),
        (200010, PinLevel.HIGH), (200011, PinLevel.LOW), (200014, PinLevel.HIGH)]).dividesByZero
      = true
    ∧ (getMHZxxMetricPWM sampleConfig 5 2000 (-1) 200000 200000 [(200000, PinLevel.LOW),
        (200010, PinLevel.HIGH), (200011, PinLevel.LOW), (200014, PinLevel.HIGH)]).status
      = none
    ∧ (pwmLoop sampleConfig.MH_ZXX_CYCLE_TIME 200000 5 [(200000, PinLevel.LOW),
        (200010, PinLevel.HIGH), (200013, PinLevel.LOW), (200013, PinLevel.HIGH)] pwmInit).map
        Prod.fst
      = some ⟨Stage.MH_ZXX_STAGE_CYCLE_FINISHED, ResultCode.DEVICE_ERROR_TIMEOUT, 3, 0⟩
    ∧ sub32 (add32 3 0) 4 = 4294967295 := by
  refine ⟨by decide, by decide, by decide, by decide, by decide, by decide, by decide⟩

/-- Why the range bound is stated for a clock that does not go backwards: a scripted clock
that does gives a completed cycle with `highTime = 1000` and
`lowTime = 2^32 - 990` (the closing poll reads a clock value 990 below the reading before
it, which on the wrapping 32-bit clock is `2^32 - 990` ms later). All of `highTime >= 2`, `lowTime >= 2`,
`highTime + lowTime > 4` and `range * (highTime - 2) < 2^32` hold, the 32-bit sum
`highTime + lowTime` wraps to 10, and the value written for range 2000 is
`2000 * 998 / 6 = 332666`, above the range. -/
theorem pwm_value_above_range :
    (pwmLoop sampleConfig.MH_ZXX_CYCLE_TIME 200000 5 [(200000, PinLevel.LOW),
        (200001, PinLevel.HIGH), (201001, PinLevel.LOW), (200011, PinLevel.HIGH)] pwmInit).map
        Prod.fst
      = some ⟨Stage.MH_ZXX_STAGE_CYCLE_FINISHED, ResultCode.DEVICE_ERROR_TIMEOUT, 1000,
          4294966306⟩
    ∧ 2 ≤ 1000 ∧ 2 ≤ 4294966306 ∧ 1000 + 4294966306 > 4 ∧ 2000 * (1000 - 2) < 4294967296
    ∧ (getMHZxxMetricPWM sampleConfig 5 2000 (-1) 200000 200000 [(200000, PinLevel.LOW),
        (200001, PinLevel.HIGH), (201001, PinLevel.LOW), (200011, PinLevel.HIGH)]).written
      = some 332666
    ∧ ¬ ((332666 : Int) ≤ 2000) := by
  refine ⟨by decide, by decide, by decide, by decide, by decide, by decide, by decide⟩

/-- The range bound in terms of the durations alone: for every completed pulse cycle with
`highTime >= 2`, `lowTime >= 2`, `4 < highTime + lowTime < 2^32` and
`range * (highTime - 2) < 2^32`, the value written by `getMHZxxMetricPWM` lies between 0
and the range. -/
theorem getMHZxxMetricPWM_value_bounded (cfg : Config) (pin range : Nat) (v : Int)
    (t0 tStart : Nat) (polls : List (Nat × PinLevel)) (st : PwmState) (polled : List Event)
    (hnow : t0 > cfg.MH_ZXX_PREHEAT_TIMEOUT) (hrange : range < 65536)
    (hloop : pwmLoop cfg.MH_ZXX_CYCLE_TIME tStart pin polls pwmInit = some (st, polled))
    (hfin : st.stage = Stage.MH_ZXX_STAGE_CYCLE_FINISHED)
    (hh : 2 ≤ st.highTime) (hl : 2 ≤ st.lowTime) (hsum : 4 < st.highTime + st.lowTime)
    (hsum32 : st.highTime + st.lowTime < 4294967296)
    (hprod : range * (st.highTime - 2) < 4294967296) :
    ∃ value : Int, (getMHZxxMetricPWM cfg pin range v t0 tStart polls).written = some value
      ∧ 0 ≤ value ∧ value ≤ range := by
  have hq : range * (st.highTime - 2) / (st.highTime + st.lowTime - 4) ≤ range := by
    apply Nat.div_le_of_le_mul
    have hle : st.highTime - 2 ≤ st.highTime + st.lowTime - 4 := by omega
    calc range * (st.highTime - 2) ≤ range * (st.highTime + st.lowTime - 4) :=
          Nat.mul_le_mul_left _ hle
      _ = (st.highTime + st.lowTime - 4) * range := Nat.mul_comm _ _
  have hv := value_exact range st.highTime st.lowTime hrange hh hsum hsum32 hprod (by omega)
  rw [getMHZxxMetricPWM_of_loop cfg pin range v t0 tStart polls st polled hnow hloop]
  rw [if_pos hfin.symm, if_neg hv.1, hv.2]
  refine ⟨((range * (st.highTime - 2) / (st.highTime + st.lowTime - 4) : Nat) : Int), rfl,
    Int.natCast_nonneg _, ?_⟩
  exact_mod_cast hq

/-- The range bound at the cycle (50, 30) with range 2000. -/
theorem getMHZxxMetricPWM_value_bounded_witness :
    ∃ value : Int,
      (getMHZxxMetricPWM sampleConfig 5 2000 (-1) 200000 200000 [(200000, PinLevel.LOW),
        (200010, PinLevel.HIGH), (200060, PinLevel.LOW), (200090, PinLevel.HIGH)]).written
        = some value
      ∧ 0 ≤ value ∧ value ≤ (2000 : Nat) :=
  getMHZxxMetricPWM_value_bounded sampleConfig 5 2000 (-1) 200000 200000 [(200000, PinLevel.LOW),
      (200010, PinLevel.HIGH), (200060, PinLevel.LOW), (200090, PinLevel.HIGH)]
    ⟨Stage.MH_ZXX_STAGE_CYCLE_FINISHED, ResultCode.DEVICE_ERROR_TIMEOUT, 50, 30⟩
    [Event.millis 200000, Event.digitalRead 5 PinLevel.LOW,
     Event.millis 200010, Event.digitalRead 5 PinLevel.HIGH,
     Event.millis 200060, Event.digitalRead 5 PinLevel.LOW,
     Event.millis 200090, Event.digitalRead 5 PinLevel.HIGH]
    (by decide) (by decide) (by decide) (by decide) (by decide) (by decide) (by decide)
    (by decide) (by decide)

/-! ## The range bound under a running clock -/

/-- A 32-bit difference is a 32-bit quantity. -/
theorem sub32_lt (a b : Nat) : sub32 a b < 4294967296 := by
  unfold sub32; exact Nat.mod_lt _ (by decide)

/-- Differences of clock readings add up as long as the elapsed time does not go backwards. -/
theorem sub32_sub (a b s : Nat) (h : sub32 b s ≤ sub32 a s) :
    sub32 a b = sub32 a s - sub32 b s := by
  unfold sub32 at *
  have hA := Nat.mod_lt a (show 4294967296 > 0 by decide)
  have hB := Nat.mod_lt b (show 4294967296 > 0 by decide)
  have hS := Nat.mod_lt s (show 4294967296 > 0 by decide)
  generalize a % 4294967296 = A at *
  generalize b % 4294967296 = B at *
  generalize s % 4294967296 = S at *
  omega

/-- One pass through the `switch` keeps the durations within the elapsed time, provided the
elapsed time shown by the clock has not gone backwards. -/
theorem pwmSwitch_elapsed (tStart : Nat) (st : PwmState) (m t : Nat) (p : PinLevel)
    (hinv : durationsWithin tStart st m) (hm : m ≤ sub32 t tStart) :
    durationsWithin tStart (pwmSwitch st t p).1 (sub32 t tStart) := by
  obtain ⟨stage, rc, h, l⟩ := st
  have hlt := sub32_lt t tStart
  cases stage <;> cases p <;>
    simp only [durationsWithin, pwmSwitch, if_true, if_false, reduceIte, reduceCtorEq] at hinv ⊢
  · exact ⟨hlt, trivial⟩
  · exact ⟨hlt, trivial⟩
  · exact ⟨hlt, trivial⟩
  · exact ⟨hlt, le_refl _⟩
  · have h1 := sub32_sub t h tStart (by omega)
    exact ⟨hlt, by omega, le_refl _⟩
  · exact ⟨hlt, by omega⟩
  · exact ⟨hlt, hinv.2.1, by omega⟩
  · have h1 := sub32_sub t l tStart (by omega)
    exact ⟨hlt, by omega⟩
  · exact ⟨hlt, by omega⟩
  · exact ⟨hlt, by omega⟩

/-- Over any polls whose elapsed time never goes backwards, the durations stay within the
elapsed time. -/
theorem pwmFold_elapsed (tStart : Nat) (polls : List (Nat × PinLevel)) (st : PwmState) (m : Nat)
    (hinv : durationsWithin tStart st m)
    (hm : ∀ p ∈ polls, m ≤ sub32 p.1 tStart)
    (hclock : (polls.map (fun p => sub32 p.1 tStart)).Pairwise (fun a b => a ≤ b)) :
    ∃ m', durationsWithin tStart (pwmFold st polls) m' := by
  induction polls generalizing st m with
  | nil => exact ⟨m, hinv⟩
  | cons p rest ih =>
    rw [List.map_cons, List.pairwise_cons] at hclock
    refine ih (pwmSwitch st p.1 p.2).1 (sub32 p.1 tStart)
      (pwmSwitch_elapsed tStart st m p.1 p.2 hinv (hm p (List.mem_cons_self _ _))) ?_ hclock.2
    intro q hq
    exact hclock.1 _ (List.mem_map.mpr ⟨q, hq, rfl⟩)

/-- C19: for every completed pulse cycle with `highTime >= 2`, `lowTime >= 2`,
`highTime + lowTime > 4` and `range * (highTime - 2) < 2^32`, the value written by
`getMHZxxMetricPWM` lies between 0 and the range. The polls are those of one pass of the
millisecond clock: the time elapsed since loop entry, as the 32-bit clock shows it, does
not go backwards from one poll to a later one. -/
theorem getMHZxxMetricPWM_value_in_range (cfg : Config) (pin range : Nat) (v : Int)
    (t0 tStart : Nat) (polls : List (Nat × PinLevel)) (st : PwmState) (polled : List Event)
    (hnow : t0 > cfg.MH_ZXX_PREHEAT_TIMEOUT) (hrange : range < 65536)
    (hclock : (polls.map (fun p => sub32 p.1 tStart)).Pairwise (fun a b => a ≤ b))
    (hloop : pwmLoop cfg.MH_ZXX_CYCLE_TIME tStart pin polls pwmInit = some (st, polled))
    (hfin : st.stage = Stage.MH_ZXX_STAGE_CYCLE_FINISHED)
    (hh : 2 ≤ st.highTime) (hl : 2 ≤ st.lowTime) (hsum : 4 < st.highTime + st.lowTime)
    (hprod : range * (st.highTime - 2) < 4294967296) :
    ∃ value : Int, (getMHZxxMetricPWM cfg pin range v t0 tStart polls).written = some value
      ∧ 0 ≤ value ∧ value ≤ range := by
  obtain ⟨before, last, rest, hp, _, hst, _, _, _⟩ :=
    pwmLoop_structure cfg.MH_ZXX_CYCLE_TIME tStart pin polls pwmInit st polled (by decide) hloop
  have hsub : List.Sublist ((before ++ [last]).map (fun p => sub32 p.1 tStart))
      (polls.map (fun p => sub32 p.1 tStart)) := by
    apply List.Sublist.map
    rw [hp]
    have : before ++ last :: rest = (before ++ [last]) ++ rest := by simp
    rw [this]
    exact List.sublist_append_left _ _
  have hinit : durationsWithin tStart pwmInit 0 := ⟨by decide, trivial⟩
  obtain ⟨m, hm⟩ := pwmFold_elapsed tStart (before ++ [last]) pwmInit 0 hinit
    (fun _ _ => Nat.zero_le _) (hclock.sublist hsub)
  rw [← hst] at hm
  have hsum32 : st.highTime + st.lowTime < 4294967296 := by
    have h1 := hm.1
    have h2 := hm.2
    rw [hfin] at h2
    simp only at h2
    omega
  exact getMHZxxMetricPWM_value_bounded cfg pin range v t0 tStart polls st polled hnow hrange
    hloop hfin hh hl hsum hsum32 hprod

/-- Witness of C19: the cycle (50, 30) with range 2000. -/
theorem getMHZxxMetricPWM_value_in_range_witness :
    ∃ value : Int,
      (getMHZxxMetricPWM sampleConfig 5 2000 (-1) 200000 200000 [(200000, PinLevel.LOW),
        (200010, PinLevel.HIGH), (200060, PinLevel.LOW), (200090, PinLevel.HIGH)]).written
        = some value
      ∧ 0 ≤ value ∧ value ≤ (2000 : Nat) :=
  getMHZxxMetricPWM_value_in_range sampleConfig 5 2000 (-1) 200000 200000 [(200000, PinLevel.LOW),
      (200010, PinLevel.HIGH), (200060, PinLevel.LOW), (200090, PinLevel.HIGH)]
    ⟨Stage.MH_ZXX_STAGE_CYCLE_FINISHED, ResultCode.DEVICE_ERROR_TIMEOUT, 50, 30⟩
    [Event.millis 200000, Event.digitalRead 5 PinLevel.LOW,
     Event.millis 200010, Event.digitalRead 5 PinLevel.HIGH,
     Event.millis 200060, Event.digitalRead 5 PinLevel.LOW,
     Event.millis 200090, Event.digitalRead 5 PinLevel.HIGH]
    (by decide) (by decide) (by decide) (by decide) (by decide) (by decide) (by decide)
    (by decide) (by decide)

end Zabbuino
